import Mathlib

/-!
Verification development for the connector backend (Flask app + vendor API
connectors).  The Python sources are shallowly embedded: each connector
instance becomes an explicit state record, the vendor HTTP world becomes an
environment record whose fields are `Except String _` (a `.error e` models a
raised exception or a transport/`raise_for_status` failure), and each method
becomes a total Lean function returning its result together with the updated
state, the list of outbound requests it issued, and the log entries it wrote.
Unbounded `while` loops are embedded with explicit fuel; a `none`/`fuelOut`
result means the loop had not terminated within the given fuel.  Wall-clock
time for the rate limiters is modelled as `ℚ` seconds.
-/

/-- Log levels of the Python `logging` calls that appear in the connectors. -/
inductive LogLevel where
  | debug
  | info
  | warning
  | error
deriving DecidableEq, Repr

/-- One log entry: level plus (the fixed prefix of) the message. -/
abbrev LogEntry := LogLevel × String

/-- A Python dict with string keys, as the connectors use for records,
token payloads and normalized schema fields.  Values are kept opaque as
strings.  Keys are unique in every dict the code builds. -/
abbrev Row := List (String × String)

/-- Key-membership test (`k in d`). -/
def Row.hasKey (r : Row) (k : String) : Bool :=
  r.any (fun p => p.1 == k)

/-- Python `del d[k]` guarded by `if k in d` (removes the key if present). -/
def Row.del (r : Row) (k : String) : Row :=
  r.filter (fun p => p.1 != k)

/-- Python `d.get(k)` returning the value when the key is present. -/
def Row.get? (r : Row) (k : String) : Option String :=
  (r.find? (fun p => p.1 == k)).map (·.2)

/-- Python `d[k] = v`: overwrite in place when the key exists, else append. -/
def Row.setVal (r : Row) (k v : String) : Row :=
  if r.hasKey k then r.map (fun p => if p.1 == k then (k, v) else p)
  else r ++ [(k, v)]

/-- Python `needle in hay` for strings (substring containment). -/
def pyIn (needle hay : String) : Bool :=
  (hay.splitOn needle).length ≥ 2

/-- Python `s.lower()`, mapping `Char.toLower` over the characters (the
vendor identifiers and SOQL keywords involved are ASCII, where this agrees
with Python's lowercasing). -/
def pyLower (s : String) : String :=
  ⟨s.data.map Char.toLower⟩

/-- Python `s.endswith(suffix)`, computed structurally on the characters. -/
def pyEndsWith (s suffix : String) : Bool :=
  suffix.data.isSuffixOf s.data

/-!
## Connector registry (`src/app.py`)

`CONNECTOR_REGISTRY` maps the six vendor identifier strings to connector
classes; it is the empty dict when the connector imports failed at process
start (`CONNECTORS_AVAILABLE = False`).  `get_connector` raises
`ValueError` with one of two distinct messages.  Both raise sites use the
same Python exception class, so the two failures are distinguishable only
by their message strings; the embedding therefore models the raised error
as its message.
-/

/-- The connector classes imported by `app.py`. -/
inductive ConnectorClass where
  | salesforce
  | google_ads
  | ga4
  | meta_ads
  | google_sheets
  | hubspot
deriving DecidableEq, Repr

/-- The registry dict literal from `app.py` (the populated branch). -/
def CONNECTOR_REGISTRY : List (String × ConnectorClass) :=
  [("salesforce", .salesforce), ("google_ads", .google_ads), ("ga4", .ga4),
   ("meta_ads", .meta_ads), ("google_sheets", .google_sheets), ("hubspot", .hubspot)]

/-- The message of the `ValueError` raised when `CONNECTORS_AVAILABLE` is false. -/
def registryUnavailableMsg : String :=
  "Connector registry is not available due to import errors."

/-- Embedding of `get_connector` from `app.py`.  `connectorsAvailable`
models the module-level `CONNECTORS_AVAILABLE` flag; a `.error` result is
the raised `ValueError`, identified by its message. -/
def get_connector (connectorsAvailable : Bool) (connector_type : String) :
    Except String ConnectorClass :=
  if !connectorsAvailable then
    .error registryUnavailableMsg
  else
    match (if connectorsAvailable then CONNECTOR_REGISTRY else []).lookup
        (pyLower connector_type) with
    | some c => .ok c
    | none => .error ("Unsupported connector type: " ++ connector_type)

/-!
## Rate limiters

Each connector instance owns `last_request_time` and `request_count`.
The embeddings take the entry wall-clock time `now` (the value of
`datetime.now()` when the method is entered) and return the updated state
together with the completion time `now + total sleep`.
-/

/-- Rate-limiter state of one connector instance. -/
structure RlState where
  last_request_time : Option ℚ
  request_count : Nat
deriving DecidableEq, Repr

/-- Embedding of `SalesforceConnector.handle_rate_limits`.  When the
counter has reached 100 the call sleeps a fixed 5 seconds, resets the
counter and returns early (the recorded timestamp is left unchanged and
the spacing logic is skipped); otherwise it enforces 0.1 s since the
recorded timestamp and records `datetime.now()` measured after the sleep. -/
def sfHandleRateLimits (st : RlState) (now : ℚ) : RlState × ℚ :=
  if st.request_count ≥ 100 then
    ({ st with request_count := 0 }, now + 5)
  else
    let sleep : ℚ :=
      match st.last_request_time with
      | none => 0
      | some l => if now - l < 1/10 then 1/10 - (now - l) else 0
    ({ last_request_time := some (now + sleep),
       request_count := st.request_count + 1 }, now + sleep)

/-- Embedding of `GA4Connector.handle_rate_limits` (the same shape is used
by the Google Ads connector).  `min_request_interval` is the configured
minimum interval.  Note that the recorded timestamp is `current_time`,
which the source captures before the sleep. -/
def ga4HandleRateLimits (min_request_interval : ℚ) (st : RlState) (now : ℚ) :
    RlState × ℚ :=
  let sleep : ℚ :=
    match st.last_request_time with
    | none => 0
    | some l =>
        if now - l < min_request_interval then min_request_interval - (now - l) else 0
  ({ last_request_time := some now, request_count := st.request_count + 1 },
   now + sleep)

/-- The spacing sleep computed by `GoogleSheetsConnector.handle_rate_limits`. -/
def sheetsSpacingSleep (min_request_interval : ℚ) (st : RlState) (now : ℚ) : ℚ :=
  match st.last_request_time with
  | none => 0
  | some l =>
      if now - l < min_request_interval then min_request_interval - (now - l) else 0

/-- Embedding of `GoogleSheetsConnector.handle_rate_limits`.  After the
spacing sleep it records the pre-sleep entry time, increments the counter,
and — when the counter has reached `requests_per_100_seconds` — sleeps a
fixed 100 seconds at the end of the same call and resets the counter. -/
def sheetsHandleRateLimits (min_request_interval : ℚ)
    (requests_per_100_seconds : Nat) (st : RlState) (now : ℚ) : RlState × ℚ :=
  let sleep := sheetsSpacingSleep min_request_interval st now
  let cnt := st.request_count + 1
  if cnt ≥ requests_per_100_seconds then
    ({ last_request_time := some now, request_count := 0 }, now + sleep + 100)
  else
    ({ last_request_time := some now, request_count := cnt }, now + sleep)

/-!
## Salesforce connector (`src/extractors/connectors/salesforce_connector.py`)

The instance state keeps the fields the methods read and write; the
environment supplies the vendor responses.  A `.error e` environment field
models an exception raised by the HTTP call (or by `raise_for_status`);
`.ok` carries the decoded response.  Timing of `handle_rate_limits` is
modelled separately (`sfHandleRateLimits`); inside the fetch embedding only
its counter update is visible, since the sleep has no other observable
effect on the data path.
-/

/-- The counter update performed by `SalesforceConnector.handle_rate_limits`. -/
def sfBumpCount (c : Nat) : Nat :=
  if c ≥ 100 then 0 else c + 1

/-- Mutable instance fields of `SalesforceConnector` used by the embedded
methods (`auth_type` is fixed at construction and never changes). -/
structure SfState where
  instance_url : Option String
  access_token : Option String
  refresh_token : Option String
  auth_type : String
  request_count : Nat
deriving DecidableEq, Repr

/-- A decoded Salesforce query response: HTTP status, `records`, and
`nextRecordsUrl` when present. -/
structure SfResp where
  status : Nat
  records : List Row
  nextRecordsUrl : Option String

/-- Outbound Salesforce requests, as the claims need to distinguish them:
the cheap validation probe, the OAuth token POSTs, the data requests
(the `/query` endpoint and its `nextRecordsUrl` continuations), the
per-object describe GET of `fetch_schema`, and the sobjects listing GET
of `list_objects`. -/
inductive SfReq where
  | probe
  | tokenPost (grant : String)
  | query (q : String)
  | nextPage (url : String)
  | describe (objectName : String)
  | sobjectsList
deriving DecidableEq, Repr

/-- The data requests (`/query` and next-page GETs). -/
def SfReq.isData : SfReq → Bool
  | .query _ => true
  | .nextPage _ => true
  | _ => false

/-- A decoded `/sobjects/{name}/describe` response body: the optional
`name` and `label` entries and the `fields` list (each field a dict). -/
structure SfDescribe where
  name : Option String
  label : Option String
  fields : List Row

/-- One entry of the `/sobjects` listing: `obj['name']` (mandatory in the
source — the embedding assumes well-formed listings; a missing key would
raise inside the same `try` and be caught like any exception),
`obj.get('queryable')` and `obj.get('customSetting')` truthiness. -/
structure SfObjEntry where
  name : String
  queryable : Bool
  customSetting : Bool

/-- Vendor world for one Salesforce interaction.  `describeResp` maps the
object name of a describe GET to its (status, body) answer; `now` is the
`datetime.now().isoformat()` timestamp. -/
structure SfEnv where
  probeStatus : Except String Nat
  authStatus : Except String Nat
  authData : Row
  refreshResp : Except String Row
  queryResp : Except String SfResp
  pageResp : String → Except String SfResp
  describeResp : String → Except String (Nat × SfDescribe)
  sobjectsResp : Except String (List SfObjEntry)
  now : String

/-- Result of an embedded method returning a Python-truthy value. -/
structure SfBoolOut where
  val : Bool
  st : SfState
  reqs : List SfReq
  logs : List LogEntry

/-- Result of `refresh_access_token`: `.ok` carries the returned
`auth_data` dict, `.error` a raised exception (its message). -/
structure SfRefreshOut where
  val : Except String Row
  st : SfState
  reqs : List SfReq
  logs : List LogEntry

/-- Embedding of `SalesforceConnector.refresh_access_token`.  With no
refresh token it raises before any HTTP request; otherwise it POSTs the
refresh grant, and on success replaces the access token (and the refresh
token when the vendor rotates it) and returns the response body.  A
missing `access_token` key in the body is the `KeyError` the `except`
logs and re-raises. -/
def sfRefreshAccessToken (env : SfEnv) (st : SfState) : SfRefreshOut :=
  match st.refresh_token with
  | none =>
      ⟨.error "No refresh token available.", st, [],
       [(.error, "No refresh token available to refresh the access token.")]⟩
  | some _ =>
      match env.refreshResp with
      | .error e =>
          ⟨.error e, st, [.tokenPost "refresh_token"],
           [(.error, "Error refreshing access token: " ++ e)]⟩
      | .ok auth_data =>
          match auth_data.get? "access_token" with
          | none =>
              ⟨.error "KeyError: access_token", st, [.tokenPost "refresh_token"],
               [(.error, "Error refreshing access token: KeyError: access_token")]⟩
          | some tok =>
              ⟨.ok auth_data,
               { st with
                  access_token := some tok,
                  refresh_token :=
                    match auth_data.get? "refresh_token" with
                    | some r => some r
                    | none => st.refresh_token },
               [.tokenPost "refresh_token"],
               [(.info, "Successfully refreshed Salesforce access token.")]⟩

/-- Embedding of the password branch of `SalesforceConnector.authenticate`
(the source reaches it exactly when `auth_type == 'password'`).  Any
exception is caught and turned into `False`. -/
def sfAuthenticatePassword (env : SfEnv) (st : SfState) : SfBoolOut :=
  match env.authStatus with
  | .error e =>
      ⟨false, st, [.tokenPost "password"], [(.error, "Authentication error: " ++ e)]⟩
  | .ok 200 =>
      match env.authData.get? "access_token" with
      | none =>
          ⟨false, st, [.tokenPost "password"],
           [(.error, "Authentication error: KeyError: access_token")]⟩
      | some tok =>
          ⟨true,
           { st with
              access_token := some tok,
              instance_url :=
                match env.authData.get? "instance_url" with
                | some u => some u
                | none => st.instance_url },
           [.tokenPost "password"],
           [(.info, "Successfully authenticated with Salesforce")]⟩
  | .ok s =>
      ⟨false, st, [.tokenPost "password"],
       [(.error, "Authentication failed: " ++ toString s)]⟩

/-- Embedding of `SalesforceConnector.validate_connection`.  The returned
`val` is the Python truthiness of the return value: the 401/token branch
returns the dict produced by `refresh_access_token` (truthy because it
contains `access_token`), and a raise inside that call is caught by the
surrounding `except`, giving `False`. -/
def sfValidateConnection (env : SfEnv) (st : SfState) : SfBoolOut :=
  match st.access_token with
  | none =>
      if st.auth_type = "password" then sfAuthenticatePassword env st
      else ⟨false, st, [], [(.warning, "No access token present for connection validation.")]⟩
  | some _ =>
      match env.probeStatus with
      | .error e =>
          ⟨false, st, [.probe], [(.error, "Connection validation error: " ++ e)]⟩
      | .ok 200 => ⟨true, st, [.probe], [(.info, "Connection to Salesforce is valid")]⟩
      | .ok 401 =>
          let logs0 : List LogEntry :=
            [(.info, "Access token may be expired, attempting to refresh/re-authenticate.")]
          if st.auth_type = "token" then
            let r := sfRefreshAccessToken env st
            match r.val with
            | .error e =>
                ⟨false, r.st, .probe :: r.reqs,
                 logs0 ++ r.logs ++ [(.error, "Connection validation error: " ++ e)]⟩
            | .ok auth_data => ⟨!auth_data.isEmpty, r.st, .probe :: r.reqs, logs0 ++ r.logs⟩
          else if st.auth_type = "password" then
            let r := sfAuthenticatePassword env st
            ⟨r.val, r.st, .probe :: r.reqs, logs0 ++ r.logs⟩
          else ⟨false, st, [.probe], logs0⟩
      | .ok s =>
          ⟨false, st, [.probe], [(.error, "Connection validation failed: " ++ toString s)]⟩

/-- The optional `query_params` dict of `SalesforceConnector.fetch_data`;
an `Option` field models presence of the corresponding key. -/
structure SfQueryParams where
  fields : Option (List String)
  whereClause : Option String
  limit : Option Nat
  order_by : Option String
deriving Repr

/-- The empty `query_params` dict. -/
def SfQueryParams.empty : SfQueryParams := ⟨none, none, none, none⟩

/-- The SOQL query construction in `SalesforceConnector.fetch_data`: a
selector containing both "select" and "from" (case-insensitively) is used
verbatim, otherwise a query is built from the object name and params. -/
def sfBuildQuery (query_or_object_name : String)
    (query_params : Option SfQueryParams) : String :=
  if pyIn "select" (pyLower query_or_object_name) &&
      pyIn "from" (pyLower query_or_object_name) then
    query_or_object_name
  else
    let p := query_params.getD SfQueryParams.empty
    let fields := p.fields.getD ["Id", "Name", "CreatedDate", "LastModifiedDate"]
    let where_clause := p.whereClause.getD ""
    let limit_clause :=
      match p.limit with
      | some n => "LIMIT " ++ toString n
      | none => ""
    let order_by := p.order_by.getD ""
    let q := "SELECT " ++ String.intercalate ", " fields ++ " FROM " ++ query_or_object_name
    let q := if where_clause = "" then q else q ++ " WHERE " ++ where_clause
    let q := if order_by = "" then q else q ++ " ORDER BY " ++ order_by
    if limit_clause = "" then q else q ++ " " ++ limit_clause

/-- Result of the pagination `while` loop in `fetch_data`: normal exit
(cursor absent, or `break` on a non-200 page), a raised exception, or
fuel exhaustion (the source loop has no page cap). -/
inductive SfLoopRes where
  | out (records : List Row) (st : SfState) (reqs : List SfReq) (logs : List LogEntry)
  | exn (e : String) (st : SfState) (reqs : List SfReq) (logs : List LogEntry)
  | fuelOut

/-- Embedding of the `while next_url:` loop in `SalesforceConnector.fetch_data`. -/
def sfPageLoop (env : SfEnv) :
    Nat → SfState → List Row → Option String → List SfReq → List LogEntry → SfLoopRes
  | _, st, acc, none, reqs, logs => .out acc st reqs logs
  | 0, _, _, some _, _, _ => .fuelOut
  | fuel + 1, st, acc, some url, reqs, logs =>
      let st' := { st with request_count := sfBumpCount st.request_count }
      let reqs' := reqs ++ [.nextPage url]
      let logs' := logs ++ [(.debug, "Fetching next batch from: " ++ url)]
      match env.pageResp url with
      | .error e => .exn e st' reqs' logs'
      | .ok resp =>
          if resp.status = 200 then
            sfPageLoop env fuel st' (acc ++ resp.records) resp.nextRecordsUrl reqs' logs'
          else
            .out acc st' reqs'
              (logs' ++ [(.error, "Error fetching next batch: " ++ toString resp.status)])

/-- Result of `fetch_data`: `result = none` means the pagination loop ran
out of fuel (the source would still be looping); `caught` records whether
the `except` branch of `fetch_data` fired. -/
structure SfFetchOut where
  result : Option (List Row)
  st : SfState
  reqs : List SfReq
  logs : List LogEntry
  caught : Bool

/-- Embedding of `SalesforceConnector.fetch_data`.  It validates first and
fails soft; on a 200 it aggregates pages, then strips the `attributes`
envelope key from every record; any exception raised in the `try` block is
caught, logged and converted to an empty list. -/
def sfFetchData (env : SfEnv) (fuel : Nat) (st : SfState)
    (query_or_object_name : String) (query_params : Option SfQueryParams) :
    SfFetchOut :=
  let v := sfValidateConnection env st
  if !v.val then
    ⟨some [], v.st, v.reqs,
     v.logs ++ [(.error, "Connection validation failed, cannot fetch data")], false⟩
  else
    let q := sfBuildQuery query_or_object_name query_params
    let logs0 := v.logs ++ [(.debug, "SOQL Query: " ++ q)]
    let st1 := { v.st with request_count := sfBumpCount v.st.request_count }
    let reqs1 := v.reqs ++ [.query q]
    match env.queryResp with
    | .error e =>
        ⟨some [], st1, reqs1, logs0 ++ [(.error, "Error fetching data: " ++ e)], true⟩
    | .ok resp =>
        if resp.status = 200 then
          match sfPageLoop env fuel st1 resp.records resp.nextRecordsUrl reqs1 logs0 with
          | .out recs st2 reqs2 logs2 =>
              ⟨some (recs.map (fun r => r.del "attributes")), st2, reqs2,
               logs2 ++ [(.info, "Successfully fetched records.")], false⟩
          | .exn e st2 reqs2 logs2 =>
              ⟨some [], st2, reqs2, logs2 ++ [(.error, "Error fetching data: " ++ e)], true⟩
          | .fuelOut => ⟨none, st1, reqs1, logs0, false⟩
        else
          ⟨some [], st1, reqs1,
           logs0 ++ [(.error, "Error fetching data: " ++ toString resp.status)], false⟩

/-- The per-field normalization step of `SalesforceConnector.list_objects`
(lines building `fields_list`): each described field becomes
`{'columnName': name, 'dataType': field_details.get('type', 'string')}`.
`fetch_schema` always stores the vendor type under `'type'`, so the
`'string'` default fires only when that key is absent; the vendor-native
type string is passed through verbatim and no nullability flag is emitted. -/
def sfFieldsToColumns (fields : List (String × Row)) : List Row :=
  fields.map (fun f => [("columnName", f.1), ("dataType", (f.2.get? "type").getD "string")])

/-- The `field_info` loop of `SalesforceConnector.fetch_schema`:
`field['name']`, `field['type']` and `field['label']` are mandatory reads
(`none` models the `KeyError` they raise when absent, which the
surrounding `except` catches), the remaining entries use `.get` defaults
(Python `None`/`True`/`False` rendered as opaque strings). -/
def sfBuildFieldInfo : List Row → Option (List (String × Row))
  | [] => some []
  | f :: rest =>
      match Row.get? f "name", Row.get? f "type", Row.get? f "label" with
      | some n, some t, some l =>
          (sfBuildFieldInfo rest).map (fun acc =>
            (n, [("type", t), ("label", l),
                 ("length", (Row.get? f "length").getD "None"),
                 ("nillable", (Row.get? f "nillable").getD "True"),
                 ("createable", (Row.get? f "createable").getD "False"),
                 ("updateable", (Row.get? f "updateable").getD "False")]) :: acc)
      | _, _, _ => none

/-- The populated dict returned by `SalesforceConnector.fetch_schema`. -/
structure SfSchemaRes where
  name : Option String
  label : Option String
  fields : List (String × Row)
  timestamp : String

/-- Result of `SalesforceConnector.fetch_schema`: `result = none` models
the empty dict `{}` returned on every failure path. -/
structure SfSchemaOut where
  result : Option SfSchemaRes
  st : SfState
  reqs : List SfReq
  logs : List LogEntry
  caught : Bool

/-- Embedding of `SalesforceConnector.fetch_schema`: validate first and
fail soft; GET the object describe; on 200 build the field-info mapping
(a `KeyError` while reading mandatory keys is caught by the same
`except`); any exception is caught, logged and converted to `{}`. -/
def sfFetchSchema (env : SfEnv) (st : SfState) (object_name : String) : SfSchemaOut :=
  let v := sfValidateConnection env st
  if !v.val then
    ⟨none, v.st, v.reqs,
     v.logs ++ [(.error, "Connection validation failed, cannot fetch schema")], false⟩
  else
    let st1 := { v.st with request_count := sfBumpCount v.st.request_count }
    let reqs1 := v.reqs ++ [.describe object_name]
    match env.describeResp object_name with
    | .error e =>
        ⟨none, st1, reqs1, v.logs ++ [(.error, "Error fetching schema: " ++ e)], true⟩
    | .ok sresp =>
        if sresp.1 = 200 then
          match sfBuildFieldInfo sresp.2.fields with
          | none =>
              ⟨none, st1, reqs1,
               v.logs ++ [(.error, "Error fetching schema: KeyError")], true⟩
          | some field_info =>
              ⟨some { name := sresp.2.name, label := sresp.2.label,
                      fields := field_info, timestamp := env.now },
               st1, reqs1, v.logs, false⟩
        else
          ⟨none, st1, reqs1,
           v.logs ++ [(.error, "Error fetching schema: " ++ toString sresp.1)], false⟩

/-- Result of `SalesforceConnector.list_objects`: the returned dict is
`{}` (the empty list) or `{'salesforce': full_schema}`. -/
structure SfListOut where
  result : List (String × List (String × List Row))
  st : SfState
  reqs : List SfReq
  logs : List LogEntry
  caught : Bool

/-- The per-object loop of `SalesforceConnector.list_objects`: each name
gets a full `fetch_schema` call (including its own `validate_connection`);
a truthy schema (which always carries `fields`) contributes its normalized
columns, an empty `{}` is skipped with a warning.  `fetch_schema` catches
all of its own exceptions, so the loop cannot raise. -/
def sfListLoop (env : SfEnv) :
    List String → SfState → List (String × List Row) → List SfReq → List LogEntry →
      List (String × List Row) × SfState × List SfReq × List LogEntry
  | [], st, acc, reqs, logs => (acc, st, reqs, logs)
  | name :: rest, st, acc, reqs, logs =>
      let logs1 := logs ++ [(.debug, "Fetching schema for " ++ name)]
      let r := sfFetchSchema env st name
      match r.result with
      | some schema =>
          sfListLoop env rest r.st (acc ++ [(name, sfFieldsToColumns schema.fields)])
            (reqs ++ r.reqs) (logs1 ++ r.logs)
      | none =>
          sfListLoop env rest r.st acc (reqs ++ r.reqs)
            (logs1 ++ r.logs ++ [(.warning, "Could not retrieve schema for " ++ name)])

/-- Embedding of `SalesforceConnector.list_objects`: validate and fail
soft; GET the sobjects listing (`raise_for_status` makes an HTTP error a
raised exception, modelled by `.error`); keep queryable, non-custom
objects whose name does not end in `__e`/`__c`; describe the first 100;
any exception is caught, logged and converted to `{}`. -/
def sfListObjects (env : SfEnv) (st : SfState) : SfListOut :=
  let v := sfValidateConnection env st
  if !v.val then
    ⟨[], v.st, v.reqs,
     v.logs ++ [(.error, "Connection validation failed, cannot list objects")], false⟩
  else
    let st1 := { v.st with request_count := sfBumpCount v.st.request_count }
    let reqs1 := v.reqs ++ [.sobjectsList]
    match env.sobjectsResp with
    | .error e =>
        ⟨[], st1, reqs1,
         v.logs ++ [(.error, "API request error while listing objects: " ++ e)], true⟩
    | .ok sobjects =>
        let object_names :=
          (sobjects.filter (fun o =>
            o.queryable && !o.customSetting &&
              !(pyEndsWith o.name "__e" || pyEndsWith o.name "__c"))).map (·.name)
        let logs1 := v.logs ++ [(.info, "Found queryable SObjects to describe.")]
        match sfListLoop env (object_names.take 100) st1 [] reqs1 logs1 with
        | (full, st2, reqs2, logs2) =>
            ⟨[("salesforce", full)], st2, reqs2, logs2, false⟩

/-!
## HubSpot connector (`src/extractors/connectors/hubspot_connector.py`)
-/

/-- Mutable token state of `HubspotConnector`. -/
structure HsState where
  access_token : Option String
  refresh_token : Option String
deriving DecidableEq, Repr

/-- Outbound HubSpot requests: the account-info probe, the token POST, the
CRM search POST (the data endpoint, tagged with the `after` cursor it
sent), and the schemas GET. -/
inductive HsReq where
  | probe
  | refreshPost
  | search (after : Option String)
  | schemas
  | schemaGet (objectType : String)
deriving DecidableEq, Repr

/-- The data request of `HubspotConnector.fetch_data`. -/
def HsReq.isData : HsReq → Bool
  | .search _ => true
  | _ => false

/-- One item of a CRM search response: its `id` and `properties` dict. -/
structure HsItem where
  id : String
  properties : Row

/-- A decoded CRM search page: `results` plus the continuation cursor
`data['paging']['next']['after']` when that path is present. -/
structure HsPage where
  results : List HsItem
  nextAfter : Option String

/-- One entry of the `/crm/v3/schemas` response: the object `name` and its
`properties` list, each property carrying its `name` and optional `type`. -/
structure HsSchemaInfo where
  name : String
  properties : List (String × Option String)

/-- A decoded `/crm/v3/schemas/{object_type}` response body: optional
top-level entries plus the `properties` list (each property a dict). -/
structure HsSchemaDetail where
  name : Option String
  labels : Option String
  primaryDisplayProperty : Option String
  properties : List Row

/-- Vendor world for one HubSpot interaction.  `search` maps the `after`
cursor sent in the payload (`none` on the first iteration) to the page
response; `schemaResp` maps the object type of a `fetch_schema` GET to its
answer; `.error` models a raised exception, including `raise_for_status`
on an HTTP error; `now` is the `datetime.now().isoformat()` timestamp. -/
structure HsEnv where
  probeStatus : Except String Nat
  refreshResp : Except String Row
  search : Option String → Except String HsPage
  schemasResp : Except String (List HsSchemaInfo)
  schemaResp : String → Except String HsSchemaDetail
  now : String

/-- Result of `HubspotConnector.refresh_access_token`: `.ok b` is the
returned boolean, `.error e` an exception that escapes the method (the
source catches only `RequestException`, so a missing `access_token` key in
the body raises `KeyError` out of the method). -/
structure HsRefreshOut where
  val : Except String Bool
  st : HsState
  reqs : List HsReq
  logs : List LogEntry

/-- Embedding of `HubspotConnector.refresh_access_token`.  With no refresh
token it returns `False` without any HTTP request; on success it replaces
the stored access token (and rotated refresh token) and returns `True` —
the new token data itself is not returned. -/
def hsRefreshAccessToken (env : HsEnv) (st : HsState) : HsRefreshOut :=
  match st.refresh_token with
  | none =>
      ⟨.ok false, st, [],
       [(.error, "No refresh token available to refresh the access token.")]⟩
  | some _ =>
      match env.refreshResp with
      | .error e =>
          ⟨.ok false, st, [.refreshPost],
           [(.error, "Error refreshing access token: " ++ e)]⟩
      | .ok auth_data =>
          match auth_data.get? "access_token" with
          | none => ⟨.error "KeyError: access_token", st, [.refreshPost], []⟩
          | some tok =>
              ⟨.ok true,
               { access_token := some tok,
                 refresh_token :=
                   match auth_data.get? "refresh_token" with
                   | some r => some r
                   | none => st.refresh_token },
               [.refreshPost],
               [(.info, "Successfully refreshed HubSpot access token.")]⟩

/-- Result of an embedded HubSpot method returning a boolean. -/
structure HsBoolOut where
  val : Bool
  st : HsState
  reqs : List HsReq
  logs : List LogEntry

/-- Embedding of `HubspotConnector.validate_connection`.  An exception
raised out of the refresh call in the 401 branch is caught by the
surrounding `except` and gives `False`. -/
def hsValidateConnection (env : HsEnv) (st : HsState) : HsBoolOut :=
  match st.access_token with
  | none =>
      ⟨false, st, [], [(.warning, "No access token present for connection validation.")]⟩
  | some _ =>
      match env.probeStatus with
      | .error e =>
          ⟨false, st, [.probe], [(.error, "Connection validation error: " ++ e)]⟩
      | .ok 200 => ⟨true, st, [.probe], [(.info, "Connection to HubSpot is valid.")]⟩
      | .ok 401 =>
          let logs0 : List LogEntry :=
            [(.info, "HubSpot access token may be expired, attempting to refresh.")]
          let r := hsRefreshAccessToken env st
          match r.val with
          | .error e =>
              ⟨false, r.st, .probe :: r.reqs,
               logs0 ++ r.logs ++ [(.error, "Connection validation error: " ++ e)]⟩
          | .ok b => ⟨b, r.st, .probe :: r.reqs, logs0 ++ r.logs⟩
      | .ok s =>
          ⟨false, st, [.probe], [(.error, "Connection validation failed: " ++ toString s)]⟩

/-- Result of the `while True:` search loop of `HubspotConnector.fetch_data`. -/
inductive HsLoopRes where
  | out (records : List Row) (reqs : List HsReq) (logs : List LogEntry)
  | exn (e : String) (reqs : List HsReq) (logs : List LogEntry)
  | fuelOut

/-- Embedding of the search loop: each iteration POSTs the search payload
with the current `after` cursor, flattens each item to its `properties`
dict plus its `id`, and continues while the response carries
`paging.next.after`.  The source loop has no page cap. -/
def hsFetchLoop (env : HsEnv) :
    Nat → Option String → List Row → List HsReq → List LogEntry → HsLoopRes
  | 0, _, _, _, _ => .fuelOut
  | fuel + 1, after, acc, reqs, logs =>
      let reqs' := reqs ++ [.search after]
      let logs' := logs ++ [(.debug, "Fetching HubSpot data")]
      match env.search after with
      | .error e => .exn e reqs' logs'
      | .ok page =>
          let acc' := acc ++ page.results.map (fun item => Row.setVal item.properties "id" item.id)
          match page.nextAfter with
          | some a => hsFetchLoop env fuel (some a) acc' reqs' logs'
          | none => .out acc' reqs' logs'

/-- Result of `HubspotConnector.fetch_data`. -/
structure HsFetchOut where
  result : Option (List Row)
  st : HsState
  reqs : List HsReq
  logs : List LogEntry
  caught : Bool

/-- Embedding of `HubspotConnector.fetch_data`: validate first and fail
soft; then loop over search pages; any exception raised in the `try` is
caught, logged and converted to an empty list. -/
def hsFetchData (env : HsEnv) (fuel : Nat) (st : HsState) : HsFetchOut :=
  let v := hsValidateConnection env st
  if !v.val then
    ⟨some [], v.st, v.reqs,
     v.logs ++ [(.error, "Connection validation failed, cannot fetch data.")], false⟩
  else
    match hsFetchLoop env fuel none [] v.reqs v.logs with
    | .out recs reqs2 logs2 =>
        ⟨some recs, v.st, reqs2, logs2 ++ [(.info, "Successfully fetched records.")], false⟩
    | .exn e reqs2 logs2 =>
        ⟨some [], v.st, reqs2, logs2 ++ [(.error, "Error fetching data: " ++ e)], true⟩
    | .fuelOut => ⟨none, v.st, v.reqs, v.logs, false⟩

/-- Result of `HubspotConnector.list_objects`: the returned dict is `{}`
(empty) or `{'hubspot': full_schema}`. -/
structure HsListOut where
  result : List (String × List (String × List Row))
  st : HsState
  reqs : List HsReq
  logs : List LogEntry
  caught : Bool

/-- The normalization of one schema property in
`HubspotConnector.list_objects`:
`{'columnName': prop['name'], 'dataType': prop.get('type', 'string')}` —
the vendor type string is passed through verbatim, `'string'` is used only
when the key is absent, and no nullability flag is emitted. -/
def hsNormalizeProp (p : String × Option String) : Row :=
  [("columnName", p.1), ("dataType", p.2.getD "string")]

/-- Embedding of `HubspotConnector.list_objects`: validate and fail soft;
fetch all CRM schemas; build the per-object normalized column lists; any
exception is caught, logged and converted to `{}`. -/
def hsListObjects (env : HsEnv) (st : HsState) : HsListOut :=
  let v := hsValidateConnection env st
  if !v.val then
    ⟨[], v.st, v.reqs,
     v.logs ++ [(.error, "Connection validation failed, cannot list objects.")], false⟩
  else
    let reqs1 := v.reqs ++ [.schemas]
    match env.schemasResp with
    | .error e =>
        ⟨[], v.st, reqs1, v.logs ++ [(.error, "API request error while listing objects: " ++ e)],
         true⟩
    | .ok schemas =>
        ⟨[("hubspot", schemas.map (fun s => (s.name, s.properties.map hsNormalizeProp)))],
         v.st, reqs1,
         v.logs ++ schemas.map (fun s => ((.debug : LogLevel), "Processing schema for " ++ s.name)),
         false⟩

/-- The `field_info` comprehension of `HubspotConnector.fetch_schema`:
`prop['name']` is a mandatory read (`none` models its `KeyError`, caught
by the generic `except`); the other entries use `.get` (Python `None`
rendered as an opaque string). -/
def hsBuildFieldInfo : List Row → Option (List (String × Row))
  | [] => some []
  | p :: rest =>
      match Row.get? p "name" with
      | none => none
      | some n =>
          (hsBuildFieldInfo rest).map (fun acc =>
            (n, [("type", (Row.get? p "type").getD "None"),
                 ("label", (Row.get? p "label").getD "None"),
                 ("fieldType", (Row.get? p "fieldType").getD "None")]) :: acc)

/-- The populated dict returned by `HubspotConnector.fetch_schema`. -/
structure HsSchemaRes where
  name : Option String
  labels : Option String
  primaryDisplayProperty : Option String
  properties : List (String × Row)
  timestamp : String

/-- Result of `HubspotConnector.fetch_schema`: `result = none` models the
empty dict `{}` returned on every failure path. -/
structure HsSchemaOut where
  result : Option HsSchemaRes
  st : HsState
  reqs : List HsReq
  logs : List LogEntry
  caught : Bool

/-- Embedding of `HubspotConnector.fetch_schema`: validate first and fail
soft; GET the object schema (`raise_for_status` failures raise and are
caught); build the field-info mapping (a `KeyError` on `prop['name']` is
caught by the generic `except`); every exception is caught, logged and
converted to `{}`. -/
def hsFetchSchema (env : HsEnv) (st : HsState) (object_type : String) : HsSchemaOut :=
  let v := hsValidateConnection env st
  if !v.val then
    ⟨none, v.st, v.reqs,
     v.logs ++ [(.error, "Connection validation failed, cannot fetch schema.")], false⟩
  else
    let reqs1 := v.reqs ++ [.schemaGet object_type]
    match env.schemaResp object_type with
    | .error e =>
        ⟨none, v.st, reqs1, v.logs ++ [(.error, "Error fetching schema: " ++ e)], true⟩
    | .ok schema =>
        match hsBuildFieldInfo schema.properties with
        | none =>
            ⟨none, v.st, reqs1,
             v.logs ++
               [(.error, "An unexpected error occurred while fetching schema: KeyError")],
             true⟩
        | some field_info =>
            ⟨some { name := schema.name, labels := schema.labels,
                    primaryDisplayProperty := schema.primaryDisplayProperty,
                    properties := field_info, timestamp := env.now },
             v.st, reqs1, v.logs, false⟩

/-!
## GA4 connector (`src/extractors/connectors/ga4_connector.py`)

The report-request construction (dimensions, metrics, date ranges,
filters, ordering) only shapes the payload sent to the vendor and is not
observable through the claims; the environment abstracts it by directly
supplying the decoded report response (or the exception the client call
raised).
-/

/-- Instance state of `GA4Connector`: whether `self.client` is
initialized, plus the token and counter fields. -/
structure Ga4State where
  client : Bool
  property_id : Option String
  access_token : Option String
  request_count : Nat
deriving DecidableEq, Repr

/-- A decoded GA4 report response: header names and, per row, the
dimension values and metric values. -/
structure Ga4Report where
  dimension_headers : List String
  metric_headers : List String
  rows : List (List String × List String)

/-- One dimension entry of a GA4 metadata response. -/
structure Ga4MetaDim where
  api_name : String
  ui_name : String
  description : String
  category : String
  deprecated : Bool

/-- One metric entry of a GA4 metadata response (`type_name` is the
`metric.type_.name` enum name). -/
structure Ga4MetaMetric where
  api_name : String
  ui_name : String
  description : String
  type_name : String
  category : String
  deprecated : Bool

/-- A decoded GA4 metadata response, as `fetch_schema` consumes it. -/
structure Ga4Metadata where
  dimensions : List Ga4MetaDim
  metrics : List Ga4MetaMetric

/-- Vendor world for one GA4 interaction.  `metadataProbe` answers the
`validate_connection` probe; `getMetadata` answers the `fetch_schema`
metadata call. -/
structure Ga4Env where
  credsExpired : Bool
  refreshTok : Except String String
  metadataProbe : Except String Unit
  runReport : Except String Ga4Report
  runRealtimeReport : Except String Ga4Report
  getMetadata : Except String Ga4Metadata
  now : String

/-- Embedding of `GA4Connector.authenticate`: build credentials, refresh
them when expired (an exception is caught and gives `False`), then
initialize the client. -/
def ga4Authenticate (env : Ga4Env) (st : Ga4State) : Bool × Ga4State × List LogEntry :=
  if env.credsExpired then
    match env.refreshTok with
    | .error e => (false, st, [(.error, "Authentication failed: " ++ e)])
    | .ok tok =>
        (true, { st with access_token := some tok, client := true },
         [(.info, "Access token refreshed"),
          (.info, "Successfully authenticated with GA4 API")])
  else
    (true, { st with client := true },
     [(.info, "Successfully authenticated with GA4 API")])

/-- Embedding of `GA4Connector.validate_connection`. -/
def ga4ValidateConnection (env : Ga4Env) (st : Ga4State) :
    Bool × Ga4State × List LogEntry :=
  if !st.client then ga4Authenticate env st
  else
    match env.metadataProbe with
    | .ok _ => (true, st, [(.info, "Connection valid for property")])
    | .error e => (false, st, [(.error, "Connection validation error: " ++ e)])

/-- Embedding of `GA4Connector._convert_report_to_records`: per row, pair
dimension and metric values with their headers (the index guard truncates
to the shorter of the two lists, as `zip` does), then add the reserved
metadata keys `_report_type`, `_property_id` and `_extracted_at`. -/
def ga4ConvertReportToRecords (property_id : Option String) (now : String)
    (resp : Ga4Report) (report_type : String) : List Row :=
  resp.rows.map (fun row =>
    let r := (resp.dimension_headers.zip row.1).foldl (fun a p => Row.setVal a p.1 p.2) ([] : Row)
    let r := (resp.metric_headers.zip row.2).foldl (fun a p => Row.setVal a p.1 p.2) r
    let r := Row.setVal r "_report_type" report_type
    let r := Row.setVal r "_property_id" (property_id.getD "")
    Row.setVal r "_extracted_at" now)

/-- Embedding of `GA4Connector._fetch_standard_report` (the request
payload is abstracted by the environment; `handle_rate_limits` bumps the
counter).  A `.error` is an exception that propagates to `fetch_data`. -/
def ga4FetchStandard (env : Ga4Env) (st : Ga4State) :
    Except String (List Row) × Ga4State :=
  let st' := { st with request_count := st.request_count + 1 }
  match env.runReport with
  | .error e => (.error e, st')
  | .ok resp => (.ok (ga4ConvertReportToRecords st.property_id env.now resp "standard"), st')

/-- Embedding of `GA4Connector._fetch_realtime_report`. -/
def ga4FetchRealtime (env : Ga4Env) (st : Ga4State) :
    Except String (List Row) × Ga4State :=
  let st' := { st with request_count := st.request_count + 1 }
  match env.runRealtimeReport with
  | .error e => (.error e, st')
  | .ok resp => (.ok (ga4ConvertReportToRecords st.property_id env.now resp "realtime"), st')

/-- Result of `GA4Connector.fetch_data`. -/
structure Ga4FetchOut where
  result : List Row
  st : Ga4State
  logs : List LogEntry
  caught : Bool

/-- Embedding of `GA4Connector.fetch_data`: validate first and fail soft;
dispatch on the report type (cohort and pivot fall back to the standard
report with a warning); every exception raised by the report fetch is
caught, logged and converted to an empty list. -/
def ga4FetchData (env : Ga4Env) (st : Ga4State) (report_type : String) : Ga4FetchOut :=
  let (ok, st1, logs1) := ga4ValidateConnection env st
  if !ok then
    ⟨[], st1, logs1 ++ [(.error, "Connection validation failed, cannot fetch data")], false⟩
  else
    let finish (pre : List LogEntry) (r : Except String (List Row) × Ga4State) : Ga4FetchOut :=
      match r.1 with
      | .error e =>
          ⟨[], r.2, logs1 ++ pre ++ [(.error, "Error fetching data: " ++ e)], true⟩
      | .ok recs =>
          ⟨recs, r.2, logs1 ++ pre ++ [(.info, "Successfully fetched records")], false⟩
    if report_type = "standard" then finish [] (ga4FetchStandard env st1)
    else if report_type = "realtime" then finish [] (ga4FetchRealtime env st1)
    else if report_type = "cohort" then
      finish [(.warning, "Cohort reports require complex configuration - using standard report")]
        (ga4FetchStandard env st1)
    else if report_type = "pivot" then
      finish [(.warning, "Pivot reports require complex configuration - using standard report")]
        (ga4FetchStandard env st1)
    else
      ⟨[], st1, logs1 ++ [(.error, "Unsupported report type: " ++ report_type)], false⟩

/-- The populated dict returned by `GA4Connector.fetch_schema`. -/
structure Ga4SchemaRes where
  property_id : Option String
  dimensions : List (String × Row)
  metrics : List (String × Row)
  timestamp : String

/-- Result of `GA4Connector.fetch_schema`: `result = none` models the
empty dict `{}` returned on every failure path. -/
structure Ga4SchemaOut where
  result : Option Ga4SchemaRes
  st : Ga4State
  logs : List LogEntry
  caught : Bool

/-- Embedding of `GA4Connector.fetch_schema`: validate first and fail
soft; `handle_rate_limits` bumps the counter before the metadata call;
every exception raised by the call is caught, logged and converted to
`{}`.  The `object_type` argument is accepted and, as in the source,
never read by the body. -/
def ga4FetchSchema (env : Ga4Env) (st : Ga4State) (object_type : String) : Ga4SchemaOut :=
  let (ok, st1, logs1) := ga4ValidateConnection env st
  if !ok then
    ⟨none, st1, logs1 ++ [(.error, "Connection validation failed, cannot fetch schema")],
     false⟩
  else
    let st2 := { st1 with request_count := st1.request_count + 1 }
    match env.getMetadata with
    | .error e =>
        ⟨none, st2, logs1 ++ [(.error, "Error fetching schema: " ++ e)], true⟩
    | .ok md =>
        ⟨some { property_id := st1.property_id,
                dimensions := md.dimensions.map (fun d =>
                  (d.api_name,
                   [("display_name", d.ui_name), ("description", d.description),
                    ("category", d.category), ("deprecated", toString d.deprecated)])),
                metrics := md.metrics.map (fun m =>
                  (m.api_name,
                   [("display_name", m.ui_name), ("description", m.description),
                    ("type", m.type_name), ("category", m.category),
                    ("deprecated", toString m.deprecated)])),
                timestamp := env.now },
         st2, logs1, false⟩

/-!
## Google Sheets connector (`src/extractors/connectors/google_sheets_connector.py`)

Values coming back from the Sheets API are kept opaque as strings (Python
`None` is rendered as the opaque string "None").  The A1-notation range
strings are built exactly as in the source; the environment answers the
values GET keyed by the full range string.
-/

/-- Instance state of `GoogleSheetsConnector`: whether `self.service` is
built, plus the token and counter fields. -/
structure ShState where
  service : Bool
  access_token : Option String
  refresh_token : Option String
  request_count : Nat
deriving DecidableEq, Repr

/-- One sheet of a spreadsheet-metadata response (`properties.title`,
`properties.sheetId` mandatory; grid counts via `.get` defaults). -/
structure ShSheet where
  title : String
  sheetId : String
  rowCount : Option String
  columnCount : Option String

/-- A decoded `spreadsheets().get` response. -/
structure ShSpreadsheet where
  title : Option String
  sheets : List ShSheet

/-- The optional `query_params` dict of `GoogleSheetsConnector.fetch_data`. -/
structure ShQueryParams where
  sheet_name : Option String
  range : Option String
  include_headers : Option Bool
deriving Repr

/-- The empty `query_params` dict. -/
def ShQueryParams.empty : ShQueryParams := ⟨none, none, none⟩

/-- Vendor world for one Google Sheets interaction.  `valuesResp` maps the
full A1 range string of a `values().get` call to its `values` list (the
`.get('values', [])` default already applied); `.error` models a raised
exception (`HttpError` included). -/
structure ShEnv where
  credsExpired : Bool
  refreshTok : Except String String
  spreadsheetResp : Except String ShSpreadsheet
  valuesResp : String → Except String (List (List String))
  now : String

/-- The counter update of `GoogleSheetsConnector.handle_rate_limits` with
the default budget of 100 (increment, then reset on reaching the budget);
its timing is modelled separately by `sheetsHandleRateLimits`. -/
def shBumpCount (c : Nat) : Nat :=
  if c + 1 ≥ 100 then 0 else c + 1

/-- Embedding of `GoogleSheetsConnector.authenticate`: build credentials,
refresh when expired (an exception is caught and gives `False`), then
build the service. -/
def shAuthenticate (env : ShEnv) (st : ShState) : Bool × ShState × List LogEntry :=
  if env.credsExpired then
    match env.refreshTok with
    | .error e => (false, st, [(.error, "Authentication failed: " ++ e)])
    | .ok tok =>
        (true, { st with access_token := some tok, service := true },
         [(.info, "Access token refreshed"),
          (.info, "Successfully authenticated with Google Sheets API")])
  else
    (true, { st with service := true },
     [(.info, "Successfully authenticated with Google Sheets API")])

/-- Embedding of `GoogleSheetsConnector.validate_connection`: with a
built service the probe body only logs and returns `True`. -/
def shValidateConnection (env : ShEnv) (st : ShState) :
    Bool × ShState × List LogEntry :=
  if !st.service then shAuthenticate env st
  else (true, st, [(.info, "Connection to Google Sheets API is valid")])

/-- One output record of `GoogleSheetsConnector.fetch_data`: pair each
header with the row value at its column index (`None` when the row is
shorter), in header order. -/
def shBuildRecord (headers row : List String) : Row :=
  headers.enum.foldl (fun acc p => Row.setVal acc p.2 ((row.get? p.1).getD "None")) []

/-- Result of `GoogleSheetsConnector.fetch_data`. -/
structure ShFetchOut where
  result : List Row
  st : ShState
  logs : List LogEntry
  caught : Bool

/-- Embedding of `GoogleSheetsConnector.fetch_data`: validate first and
fail soft; GET the spreadsheet metadata (defaulting to the first sheet's
title — indexing an empty sheet list raises, and is caught); GET the
values for the built range; convert rows to records with the reserved
metadata keys; every exception is caught, logged and converted to `[]`. -/
def shFetchData (env : ShEnv) (st : ShState) (spreadsheet_id : String)
    (query_params : Option ShQueryParams) : ShFetchOut :=
  let v := shValidateConnection env st
  if !v.1 then
    ⟨[], v.2.1, v.2.2 ++ [(.error, "Connection validation failed, cannot fetch data")],
     false⟩
  else
    let p := query_params.getD ShQueryParams.empty
    let sheet_name := p.sheet_name.getD ""
    let range_notation := p.range.getD ""
    let include_headers := p.include_headers.getD true
    let st1 := { v.2.1 with request_count := shBumpCount v.2.1.request_count }
    match env.spreadsheetResp with
    | .error e =>
        ⟨[], st1, v.2.2 ++ [(.error, "Error fetching data: " ++ e)], true⟩
    | .ok ss =>
        match (if sheet_name = "" then (ss.sheets.head?).map (·.title) else some sheet_name) with
        | none =>
            ⟨[], st1, v.2.2 ++ [(.error, "Error fetching data: IndexError")], true⟩
        | some sname =>
            let full_range := if range_notation = "" then sname
              else sname ++ "!" ++ range_notation
            let st2 := { st1 with request_count := shBumpCount st1.request_count }
            let logs1 := v.2.2 ++ [(.debug, "Fetching data from range: " ++ full_range)]
            match env.valuesResp full_range with
            | .error e =>
                ⟨[], st2, logs1 ++ [(.error, "Error fetching data: " ++ e)], true⟩
            | .ok values =>
                match values with
                | [] =>
                    ⟨[], st2, logs1 ++ [(.warning, "No data found in the specified range")],
                     false⟩
                | v0 :: vrest =>
                    let headers := if include_headers then v0
                      else (List.range ((values.map List.length).foldl max 0)).map
                        (fun i => "Column_" ++ toString (i + 1))
                    let data_rows := if include_headers then vrest else values
                    let base := if include_headers then 2 else 1
                    let records := data_rows.enum.map (fun q =>
                      let r := shBuildRecord headers q.2
                      let r := Row.setVal r "_row_number" (toString (q.1 + base))
                      let r := Row.setVal r "_sheet_name" sname
                      let r := Row.setVal r "_spreadsheet_id" spreadsheet_id
                      Row.setVal r "_extracted_at" env.now)
                    ⟨records, st2, logs1 ++ [(.info, "Successfully fetched records")],
                     false⟩

/-- The column-letter conversion `_number_to_column_letter`, embedded with
structural fuel (`n` iterations always suffice since the argument shrinks
every step). -/
def numberToColumnLetterAux : Nat → Nat → String
  | 0, _ => ""
  | fuel + 1, n =>
      if n = 0 then ""
      else numberToColumnLetterAux fuel ((n - 1) / 26) ++
        String.singleton (Char.ofNat ((n - 1) % 26 + 65))

/-- Python `_number_to_column_letter` (1 → A, 27 → AA, ...). -/
def numberToColumnLetter (n : Nat) : String :=
  numberToColumnLetterAux n n

/-- The populated dict returned by `GoogleSheetsConnector.fetch_schema`. -/
structure ShSchemaRes where
  spreadsheet_id : String
  spreadsheet_title : String
  sheet_name : String
  sheet_id : String
  row_count : String
  column_count : String
  headers : List String
  fields : List (String × Row)
  timestamp : String

/-- Result of `GoogleSheetsConnector.fetch_schema`: `result = none`
models the empty dict `{}` returned on every failure path. -/
structure ShSchemaOut where
  result : Option ShSchemaRes
  st : ShState
  logs : List LogEntry
  caught : Bool

/-- The tail of `GoogleSheetsConnector.fetch_schema` once the target
sheet is known: GET the `{sheet}!1:1` header row and build the schema
dict with its per-header field entries. -/
def shFetchSchemaRest (env : ShEnv) (st1 : ShState) (logs0 : List LogEntry)
    (spreadsheet_id : String) (ss : ShSpreadsheet) (target : ShSheet) : ShSchemaOut :=
  let st2 := { st1 with request_count := shBumpCount st1.request_count }
  match env.valuesResp (target.title ++ "!1:1") with
  | .error e =>
      ⟨none, st2, logs0 ++ [(.error, "Error fetching schema: " ++ e)], true⟩
  | .ok values =>
      let headers := match values with
        | [] => []
        | v0 :: _ => v0
      ⟨some { spreadsheet_id := spreadsheet_id,
              spreadsheet_title := ss.title.getD "",
              sheet_name := target.title,
              sheet_id := target.sheetId,
              row_count := target.rowCount.getD "0",
              column_count := target.columnCount.getD "0",
              headers := headers,
              fields := headers.enum.map (fun p =>
                (p.2, [("column_index", toString p.1),
                       ("column_letter", numberToColumnLetter (p.1 + 1)),
                       ("type", "string"), ("nullable", "True")])),
              timestamp := env.now },
       st2, logs0, false⟩

/-- Embedding of `GoogleSheetsConnector.fetch_schema`: validate first and
fail soft; locate the target sheet (first sheet when no name is given —
indexing an empty list raises and is caught; a named sheet that is absent
is a logged, non-raising `{}`); GET the header row; build the per-header
field entries; every exception is caught, logged and converted to `{}`. -/
def shFetchSchema (env : ShEnv) (st : ShState) (spreadsheet_id : String)
    (sheet_name : Option String) : ShSchemaOut :=
  let v := shValidateConnection env st
  if !v.1 then
    ⟨none, v.2.1,
     v.2.2 ++ [(.error, "Connection validation failed, cannot fetch schema")], false⟩
  else
    let st1 := { v.2.1 with request_count := shBumpCount v.2.1.request_count }
    match env.spreadsheetResp with
    | .error e =>
        ⟨none, st1, v.2.2 ++ [(.error, "Error fetching schema: " ++ e)], true⟩
    | .ok ss =>
        match sheet_name with
        | some n =>
            match ss.sheets.find? (fun sh => sh.title = n) with
            | none =>
                ⟨none, st1, v.2.2 ++ [(.error, "Sheet not found: " ++ n)], false⟩
            | some target => shFetchSchemaRest env st1 v.2.2 spreadsheet_id ss target
        | none =>
            match ss.sheets.head? with
            | none =>
                ⟨none, st1, v.2.2 ++ [(.error, "Error fetching schema: IndexError")], true⟩
            | some target => shFetchSchemaRest env st1 v.2.2 spreadsheet_id ss target

/-!
## Google Ads connector (`src/extractors/connectors/google_ads_connector.py`)

The per-object-type GAQL query construction (fields, date ranges,
conditions) only shapes the payload of the single `GoogleAdsService.search`
call a `fetch_data` invocation makes and is not observable through the
claims; the environment abstracts it by directly supplying the decoded
rows (already converted from protobuf by `_convert_row_to_dict`, whose
output is an opaque record here) or the exception the call raised.
-/

/-- Instance state of `GoogleAdsConnector`. -/
structure GadsState where
  client : Bool
  customer_id : Option String
  request_count : Nat
deriving DecidableEq, Repr

/-- Vendor world for one Google Ads interaction. -/
structure GadsEnv where
  loadClient : Except String Unit
  customerProbe : Except String Unit
  searchResp : Except String (List Row)
  now : String

/-- Embedding of `GoogleAdsConnector.authenticate`: build the client from
the credential config; an exception is caught and gives `False`. -/
def gadsAuthenticate (env : GadsEnv) (st : GadsState) :
    Bool × GadsState × List LogEntry :=
  match env.loadClient with
  | .error e => (false, st, [(.error, "Authentication failed: " ++ e)])
  | .ok _ =>
      (true, { st with client := true },
       [(.info, "Successfully authenticated with Google Ads API")])

/-- Embedding of `GoogleAdsConnector.validate_connection`. -/
def gadsValidateConnection (env : GadsEnv) (st : GadsState) :
    Bool × GadsState × List LogEntry :=
  if !st.client then gadsAuthenticate env st
  else
    match env.customerProbe with
    | .ok _ => (true, st, [(.info, "Connection valid for customer")])
    | .error e => (false, st, [(.error, "Google Ads API error: " ++ e)])

/-- Embedding of `GoogleAdsConnector._execute_query`: `handle_rate_limits`
bumps the counter, then the search runs; each returned row gets the
reserved `_customer_id` and `_extracted_at` keys.  A `GoogleAdsException`
is logged and **re-raised** (`.error`), to be caught by `fetch_data`. -/
def gadsExecuteQuery (env : GadsEnv) (st : GadsState) :
    Except String (List Row) × GadsState × List LogEntry :=
  let st1 := { st with request_count := st.request_count + 1 }
  match env.searchResp with
  | .error e => (.error e, st1, [(.error, "Query execution failed: " ++ e)])
  | .ok rows =>
      (.ok (rows.map (fun r =>
        Row.setVal (Row.setVal r "_customer_id" (st.customer_id.getD "None"))
          "_extracted_at" env.now)), st1, [])

/-- The seven object types the `elif` chain of
`GoogleAdsConnector.fetch_data` dispatches on (each branch builds its own
GAQL query — payload only — and calls `_execute_query`). -/
def gadsKnownType (t : String) : Bool :=
  t == "campaigns" || t == "ad_groups" || t == "ads" || t == "keywords" ||
    t == "campaign_performance" || t == "ad_group_performance" ||
    t == "keyword_performance"

/-- Result of `GoogleAdsConnector.fetch_data`. -/
structure GadsFetchOut where
  result : List Row
  st : GadsState
  logs : List LogEntry
  caught : Bool

/-- Embedding of `GoogleAdsConnector.fetch_data`: validate first and fail
soft; dispatch on the object type; the re-raised `GoogleAdsException`
from `_execute_query` (and any other exception) is caught, logged and
converted to an empty list. -/
def gadsFetchData (env : GadsEnv) (st : GadsState) (object_type : String) :
    GadsFetchOut :=
  let v := gadsValidateConnection env st
  if !v.1 then
    ⟨[], v.2.1, v.2.2 ++ [(.error, "Connection validation failed, cannot fetch data")],
     false⟩
  else if gadsKnownType object_type then
    match gadsExecuteQuery env v.2.1 with
    | (.error e, st2, logs2) =>
        ⟨[], st2, v.2.2 ++ logs2 ++ [(.error, "Google Ads API error: " ++ e)], true⟩
    | (.ok recs, st2, logs2) =>
        ⟨recs, st2, v.2.2 ++ logs2 ++ [(.info, "Successfully fetched records")], false⟩
  else
    ⟨[], v.2.1, v.2.2 ++ [(.error, "Unsupported object type: " ++ object_type)], false⟩

/-- The static per-object schema table of `GoogleAdsConnector.fetch_schema`
(only two object types have entries; others get the empty sub-dict). -/
def gadsSchemas (object_type : String) : List (String × Row) :=
  if object_type = "campaigns" then
    [("campaign.id", [("type", "integer"), ("description", "Campaign ID")]),
     ("campaign.name", [("type", "string"), ("description", "Campaign name")]),
     ("campaign.status", [("type", "string"), ("description", "Campaign status")]),
     ("campaign.advertising_channel_type", [("type", "string"), ("description", "Channel type")]),
     ("campaign.start_date", [("type", "date"), ("description", "Start date")]),
     ("campaign.end_date", [("type", "date"), ("description", "End date")])]
  else if object_type = "campaign_performance" then
    [("campaign.id", [("type", "integer"), ("description", "Campaign ID")]),
     ("segments.date", [("type", "date"), ("description", "Date")]),
     ("metrics.impressions", [("type", "integer"), ("description", "Impressions")]),
     ("metrics.clicks", [("type", "integer"), ("description", "Clicks")]),
     ("metrics.cost_micros", [("type", "integer"), ("description", "Cost number")]),
     ("metrics.conversions", [("type", "number"), ("description", "Conversions")]),
     ("metrics.ctr", [("type", "number"), ("description", "Click-through rate")]),
     ("metrics.average_cpc", [("type", "number"), ("description", "Average cost per click")])]
  else []

/-- The dict returned by `GoogleAdsConnector.fetch_schema`. -/
structure GadsSchemaRes where
  object_type : String
  customer_id : Option String
  schema : List (String × Row)
  timestamp : String

/-- Embedding of `GoogleAdsConnector.fetch_schema`: the method performs
**no vendor interaction at all** — no validation, no HTTP call, no
`try` — it only assembles the static schema table.  The environment
parameter is accepted (the method has access to the client) and never
used, which the claim-C2 theorem states as environment-independence. -/
def gadsFetchSchema (env : GadsEnv) (st : GadsState) (object_type : String)
    (now : String) : GadsSchemaRes :=
  { object_type := object_type, customer_id := st.customer_id,
    schema := gadsSchemas object_type, timestamp := now }

/-!
## Shared fixtures and auxiliary predicates

Concrete states and environments used by the witnesses and
counterexamples, plus the predicates needed to phrase pagination claims.
-/

/-- A token-authenticated Salesforce instance (no refresh token). -/
def sfStTok : SfState := ⟨some "https://inst.example", some "tok", none, "token", 0⟩

/-- A token-authenticated Salesforce instance holding a refresh token. -/
def sfStTokRefresh : SfState := ⟨some "https://inst.example", some "tok", some "ref", "token", 0⟩

/-- A HubSpot instance with access and refresh tokens. -/
def hsStTok : HsState := ⟨some "tok", some "ref"⟩

/-- A HubSpot instance with an access token but no refresh token. -/
def hsStNoRefresh : HsState := ⟨some "tok", none⟩

/-- A GA4 instance whose client is initialized. -/
def ga4StClient : Ga4State := ⟨true, some "properties/1", none, 0⟩

/-- Benign Salesforce environment: probe succeeds, data endpoints unused. -/
def sfEnvBase : SfEnv :=
  { probeStatus := .ok 200, authStatus := .ok 200,
    authData := [("access_token", "t2")],
    refreshResp := .ok [("access_token", "t3")],
    queryResp := .error "unused", pageResp := fun _ => .error "unused",
    describeResp := fun _ => .error "unused", sobjectsResp := .error "unused",
    now := "2026-10-12T00:00:00" }

/-- Benign HubSpot environment. -/
def hsEnvBase : HsEnv :=
  { probeStatus := .ok 200, refreshResp := .ok [("access_token", "t2")],
    search := fun _ => .error "unused", schemasResp := .error "unused",
    schemaResp := fun _ => .error "unused", now := "2026-10-12T00:00:00" }

/-- Benign GA4 environment. -/
def ga4EnvBase : Ga4Env :=
  { credsExpired := false, refreshTok := .error "unused", metadataProbe := .ok (),
    runReport := .error "unused", runRealtimeReport := .error "unused",
    getMetadata := .error "unused", now := "2026-10-12T00:00:00" }

/-- Salesforce probe answers HTTP 500, so validation fails (non-auth failure). -/
def sfProbe500Env : SfEnv := { sfEnvBase with probeStatus := .ok 500 }

/-- HubSpot probe answers HTTP 500. -/
def hsProbe500Env : HsEnv := { hsEnvBase with probeStatus := .ok 500 }

/-- The Salesforce query GET raises. -/
def sfQueryErrEnv : SfEnv := { sfEnvBase with queryResp := .error "boom" }

/-- The HubSpot search POST raises. -/
def hsSearchErrEnv : HsEnv := { hsEnvBase with search := fun _ => .error "boom" }

/-- The HubSpot schemas GET raises. -/
def hsSchemasErrEnv : HsEnv := { hsEnvBase with schemasResp := .error "boom" }

/-- The GA4 report call raises. -/
def ga4ReportErrEnv : Ga4Env := { ga4EnvBase with runReport := .error "boom" }

/-- The Salesforce describe GET raises. -/
def sfDescribeErrEnv : SfEnv := { sfEnvBase with describeResp := fun _ => .error "boom" }

/-- The Salesforce sobjects listing GET raises. -/
def sfSobjectsErrEnv : SfEnv := { sfEnvBase with sobjectsResp := .error "boom" }

/-- The HubSpot per-object schema GET raises. -/
def hsSchemaGetErrEnv : HsEnv := { hsEnvBase with schemaResp := fun _ => .error "boom" }

/-- The GA4 metadata call of `fetch_schema` raises. -/
def ga4MetaErrEnv : Ga4Env := { ga4EnvBase with getMetadata := .error "boom" }

/-- A Google Sheets instance whose service is built. -/
def shStService : ShState := ⟨true, some "tok", some "ref", 0⟩

/-- Benign Google Sheets environment. -/
def shEnvBase : ShEnv :=
  { credsExpired := false, refreshTok := .error "unused",
    spreadsheetResp := .error "unused", valuesResp := fun _ => .error "unused",
    now := "2026-10-12T00:00:00" }

/-- The spreadsheet-metadata GET raises. -/
def shFetchErrEnv : ShEnv := { shEnvBase with spreadsheetResp := .error "boom" }

/-- A Google Ads instance whose client is initialized. -/
def gadsStClient : GadsState := ⟨true, some "1234567890", 0⟩

/-- Benign Google Ads environment. -/
def gadsEnvBase : GadsEnv :=
  { loadClient := .ok (), customerProbe := .ok (), searchResp := .error "unused",
    now := "2026-10-12T00:00:00" }

/-- The Google Ads search call raises. -/
def gadsSearchErrEnv : GadsEnv := { gadsEnvBase with searchResp := .error "boom" }

/-- HubSpot schemas response with one object whose single property carries
the vendor-native type string "currency" (no mapping exists for it). -/
def hsSchemaCurrencyEnv : HsEnv :=
  { hsEnvBase with schemasResp := .ok [⟨"deals", [("amount", some "currency")]⟩] }

/-- A Salesforce page source whose every response carries a continuation
cursor (the cursor never becomes absent). -/
def sfConstCursorEnv : SfEnv :=
  { sfEnvBase with
    queryResp := .ok ⟨200, [], some "next"⟩,
    pageResp := fun _ => .ok ⟨200, [], some "next"⟩ }

/-- A HubSpot page source whose every response carries `paging.next.after`. -/
def hsConstCursorEnv : HsEnv :=
  { hsEnvBase with search := fun _ => .ok ⟨[], some "cursor"⟩ }

/-- A Salesforce source with two pages: one record (with the vendor
`attributes` envelope) plus a cursor, then one record and no cursor. -/
def sfTwoPageEnv : SfEnv :=
  { sfEnvBase with
    queryResp := .ok ⟨200, [[("Id", "1"), ("attributes", "meta")]], some "page2"⟩,
    pageResp := fun u =>
      if u = "page2" then .ok ⟨200, [[("Id", "2")]], none⟩ else .error "unexpected" }

/-- A single-page Salesforce source whose record carries `attributes`. -/
def sfAttrEnv : SfEnv :=
  { sfEnvBase with queryResp := .ok ⟨200, [[("attributes", "x"), ("Id", "7")]], none⟩ }

/-- Token refresh succeeds and the vendor issues access token "newA". -/
def hsTokEnvA : HsEnv := { hsEnvBase with refreshResp := .ok [("access_token", "newA")] }

/-- Token refresh succeeds and the vendor issues access token "newB". -/
def hsTokEnvB : HsEnv := { hsEnvBase with refreshResp := .ok [("access_token", "newB")] }

/-- A one-row GA4 report response. -/
def ga4SampleReport : Ga4Report := ⟨["country"], ["sessions"], [(["US"], ["5"])]⟩

/-- The record `_convert_report_to_records` builds from `ga4SampleReport`. -/
def ga4SampleRow : Row :=
  [("country", "US"), ("sessions", "5"), ("_report_type", "standard"),
   ("_property_id", "properties/1"), ("_extracted_at", "2026-10-12T00:00:00")]

/-- First of three back-to-back GA4 rate-limited calls, entering at time 0. -/
def ga4Call1 : RlState × ℚ := ga4HandleRateLimits (1/10) ⟨none, 0⟩ 0

/-- Second call, entering the instant the first completes. -/
def ga4Call2 : RlState × ℚ := ga4HandleRateLimits (1/10) ga4Call1.1 ga4Call1.2

/-- Third call, entering the instant the second completes. -/
def ga4Call3 : RlState × ℚ := ga4HandleRateLimits (1/10) ga4Call2.1 ga4Call2.2

/-- First Google Sheets rate-limited call with window budget 2, at time 0. -/
def sheetsCall1 : RlState × ℚ := sheetsHandleRateLimits 1 2 ⟨none, 0⟩ 0

/-- Second call (entering at time 1, after the minimum spacing). -/
def sheetsCall2 : RlState × ℚ := sheetsHandleRateLimits 1 2 sheetsCall1.1 1

/-- Third call, entering the instant the second completes. -/
def sheetsCall3 : RlState × ℚ := sheetsHandleRateLimits 1 2 sheetsCall2.1 sheetsCall2.2

/-- A Salesforce page source in which no response ever lacks a cursor. -/
def sfAlwaysCursor (env : SfEnv) : Prop :=
  ∀ url, ∃ rs u, env.pageResp url = .ok ⟨200, rs, some u⟩

/-- A HubSpot page source in which no response ever lacks a cursor. -/
def hsAlwaysCursor (env : HsEnv) : Prop :=
  ∀ after, ∃ items a, env.search after = .ok ⟨items, some a⟩

/-- The Salesforce fetch never terminates: for every fuel bound the
pagination loop is still running. -/
def sfFetchDiverges (env : SfEnv) (st : SfState) (q : String)
    (p : Option SfQueryParams) : Prop :=
  ∀ fuel, (sfFetchData env fuel st q p).result = none

/-- The HubSpot fetch never terminates. -/
def hsFetchDiverges (env : HsEnv) (st : HsState) : Prop :=
  ∀ fuel, (hsFetchData env fuel st).result = none

/-- A finite chain of Salesforce pages: starting from the given cursor,
following `nextRecordsUrl` yields exactly the listed record pages and then
an absent cursor. -/
inductive SfChain (env : SfEnv) : Option String → List (List Row) → Prop where
  | nil : SfChain env none []
  | cons {url : String} {rs : List Row} {next : Option String} {rest : List (List Row)} :
      env.pageResp url = .ok ⟨200, rs, next⟩ →
      SfChain env next rest →
      SfChain env (some url) (rs :: rest)

/-!
## Helper lemmas
-/

/-- Deleting a key removes it: the strip loop leaves no `attributes` key. -/
theorem Row.hasKey_del (r : Row) (k : String) : (Row.del r k).hasKey k = false := by
  simp [Row.del, Row.hasKey, List.any_eq_true, List.mem_filter]

/-- Overwriting an existing key in place puts `(k, v)` at its position,
so a search for `k` finds it. -/
theorem find?_overwrite (k v : String) (t : List (String × String))
    (ht : t.any (fun p => p.1 == k) = true) :
    (t.map (fun p => if (p.1 == k) = true then (k, v) else p)).find?
      (fun p => p.1 == k) = some (k, v) := by
  induction t with
  | nil => simp at ht
  | cons a t ih =>
      by_cases h : (a.1 == k) = true
      · rw [List.map_cons, if_pos h]
        simp only [List.find?_cons, beq_self_eq_true]
      · have hf : (a.1 == k) = false := Bool.eq_false_iff.mpr h
        have ht' : t.any (fun p => p.1 == k) = true := by
          simp only [List.any_cons, hf, Bool.false_or] at ht
          exact ht
        rw [List.map_cons, if_neg h]
        simp only [List.find?_cons, hf]
        exact ih ht'

/-- Appending a fresh key at the end makes it findable. -/
theorem find?_append_fresh (k v : String) (t : List (String × String)) :
    t.any (fun p => p.1 == k) = false →
    (t ++ [(k, v)]).find? (fun p => p.1 == k) = some (k, v) := by
  induction t with
  | nil =>
      intro _
      rw [List.nil_append]
      simp only [List.find?_cons, beq_self_eq_true]
  | cons a t ih =>
      intro ht
      have h : (a.1 == k) = false := by
        rcases Bool.eq_false_or_eq_true (a.1 == k) with hh | hh
        · simp only [List.any_cons, hh, Bool.true_or] at ht
          exact absurd ht (by decide)
        · exact hh
      have ht' : t.any (fun p => p.1 == k) = false := by
        simp only [List.any_cons, h, Bool.false_or] at ht
        exact ht
      rw [List.cons_append]
      simp only [List.find?_cons, h]
      exact ih ht'

/-- Looking up a key just assigned yields the assigned value. -/
theorem Row.get?_setVal (r : Row) (k v : String) :
    Row.get? (Row.setVal r k v) k = some v := by
  unfold Row.setVal Row.get?
  split
  next hk =>
      rw [find?_overwrite k v r hk]
      rfl
  next hk =>
      have h2 : r.any (fun p => p.1 == k) = false := by
        simp only [Bool.not_eq_true] at hk
        exact hk
      rw [find?_append_fresh k v r h2]
      rfl

/-- `validate_connection` issues only probe and token requests, never a
data (query/next-page) request. -/
theorem sfValidate_reqs_not_data (env : SfEnv) (st : SfState) :
    ((sfValidateConnection env st).reqs).all (fun r => !r.isData) = true := by
  unfold sfValidateConnection sfAuthenticatePassword sfRefreshAccessToken
  repeat' split
  all_goals simp_all [SfReq.isData]

/-- HubSpot `validate_connection` issues only probe and token requests. -/
theorem hsValidate_reqs_not_data (env : HsEnv) (st : HsState) :
    ((hsValidateConnection env st).reqs).all (fun r => !r.isData) = true := by
  unfold hsValidateConnection hsRefreshAccessToken
  repeat' split
  all_goals simp_all [HsReq.isData]

/-!
## Claim theorems
-/

/-- C3: registry resolution is a case-insensitive exact match over the
fixed vendor-identifier set: every registered id resolves in any letter
casing; any other string fails with the unknown-vendor `ValueError`; when
the connector imports failed at process start the failure is the distinct
registry-unavailable `ValueError`, whose message never coincides with an
unknown-vendor message. -/
theorem c3_registry_resolution :
    (∀ s : String, get_connector false s = .error registryUnavailableMsg) ∧
    (∀ s : String, pyLower s = "salesforce" → get_connector true s = .ok .salesforce) ∧
    (∀ s : String, pyLower s = "google_ads" → get_connector true s = .ok .google_ads) ∧
    (∀ s : String, pyLower s = "ga4" → get_connector true s = .ok .ga4) ∧
    (∀ s : String, pyLower s = "meta_ads" → get_connector true s = .ok .meta_ads) ∧
    (∀ s : String, pyLower s = "google_sheets" → get_connector true s = .ok .google_sheets) ∧
    (∀ s : String, pyLower s = "hubspot" → get_connector true s = .ok .hubspot) ∧
    (∀ s : String,
        pyLower s ∉ ["salesforce", "google_ads", "ga4", "meta_ads", "google_sheets", "hubspot"] →
        get_connector true s = .error ("Unsupported connector type: " ++ s)) ∧
    (∀ s : String, ("Unsupported connector type: " ++ s) ≠ registryUnavailableMsg) := by
  refine ⟨fun s => rfl, ?_, ?_, ?_, ?_, ?_, ?_, ?_, ?_⟩
  · intro s h; unfold get_connector; rw [h]; rfl
  · intro s h; unfold get_connector; rw [h]; rfl
  · intro s h; unfold get_connector; rw [h]; rfl
  · intro s h; unfold get_connector; rw [h]; rfl
  · intro s h; unfold get_connector; rw [h]; rfl
  · intro s h; unfold get_connector; rw [h]; rfl
  · intro s h
    simp only [List.mem_cons, List.not_mem_nil, or_false, not_or] at h
    obtain ⟨h1, h2, h3, h4, h5, h6⟩ := h
    have f1 : (pyLower s == "salesforce") = false := beq_eq_false_iff_ne.mpr h1
    have f2 : (pyLower s == "google_ads") = false := beq_eq_false_iff_ne.mpr h2
    have f3 : (pyLower s == "ga4") = false := beq_eq_false_iff_ne.mpr h3
    have f4 : (pyLower s == "meta_ads") = false := beq_eq_false_iff_ne.mpr h4
    have f5 : (pyLower s == "google_sheets") = false := beq_eq_false_iff_ne.mpr h5
    have f6 : (pyLower s == "hubspot") = false := beq_eq_false_iff_ne.mpr h6
    unfold get_connector CONNECTOR_REGISTRY
    simp only [List.lookup, f1, f2, f3, f4, f5, f6]
    rfl
  · intro s h
    have h2 := congrArg (fun t => t.data.head?) h
    have h3 : ("Unsupported connector type: " ++ s).data.head? = some 'U' := rfl
    have h4 : registryUnavailableMsg.data.head? = some 'C' := rfl
    simp only [h3, h4] at h2
    exact absurd (Option.some.inj h2) (by decide)

/-- C3 witness: concrete resolutions. -/
theorem c3_witness :
    get_connector true "SalesForce" = .ok .salesforce ∧
    get_connector true "oracle" = .error ("Unsupported connector type: " ++ "oracle") ∧
    get_connector false "hubspot" = .error registryUnavailableMsg :=
  ⟨c3_registry_resolution.2.1 "SalesForce" (by decide),
   c3_registry_resolution.2.2.2.2.2.2.2.1 "oracle" (by decide),
   c3_registry_resolution.1 "hubspot"⟩

/-- C7 counterexample: three back-to-back GA4 `handle_rate_limits` calls
with minimum interval 0.1 s; the limiter records the pre-sleep entry time,
so the second and third invocations complete at the same instant — two
consecutive invocations complete less than 0.1 s apart, refuting the
claimed minimum spacing between consecutive completions. -/
theorem c7_counterexample :
    ga4Call2.2 = 1/10 ∧ ga4Call3.2 = 1/10 ∧ ga4Call3.2 - ga4Call2.2 < 1/10 := by
  refine ⟨?_, ?_, ?_⟩ <;>
    norm_num [ga4Call3, ga4Call2, ga4Call1, ga4HandleRateLimits]

/-- C7 amended: the limiter guarantees spacing relative to the recorded
timestamp, not the previous completion.  For the GA4-style limiter each
invocation completes at least `m` after the previous invocation's entry
time (the recorded timestamp); for Salesforce, below the 100-request
window reset, each invocation completes at least 0.1 s after the recorded
timestamp and records its own completion time.  Consecutive completions
of the GA4-style limiter may be less than `m` apart. -/
theorem c7_amended_min_spacing :
    (∀ (m : ℚ) (st : RlState) (l now : ℚ),
        st.last_request_time = some l → l ≤ now →
        l + m ≤ (ga4HandleRateLimits m st now).2) ∧
    (∀ (st : RlState) (l now : ℚ),
        st.request_count < 100 → st.last_request_time = some l → l ≤ now →
        l + 1/10 ≤ (sfHandleRateLimits st now).2 ∧
        (sfHandleRateLimits st now).1.last_request_time =
          some ((sfHandleRateLimits st now).2)) := by
  constructor
  · intro m st l now hl hle
    simp only [ga4HandleRateLimits, hl]
    split_ifs with h
    · linarith
    · linarith [not_lt.mp h]
  · intro st l now hc hl hle
    have hn : ¬ st.request_count ≥ 100 := by omega
    constructor
    · simp only [sfHandleRateLimits, if_neg hn, hl]
      split_ifs with h
      · linarith
      · linarith [not_lt.mp h]
    · simp [sfHandleRateLimits, if_neg hn, hl]

/-- C7 witness: concrete instances of both amended guarantees. -/
theorem c7_witness :
    ((0 : ℚ) + 1/10 ≤ (ga4HandleRateLimits (1/10) ⟨some 0, 0⟩ 0).2) ∧
    ((0 : ℚ) + 1/10 ≤ (sfHandleRateLimits ⟨some 0, 5⟩ 0).2 ∧
      (sfHandleRateLimits ⟨some 0, 5⟩ 0).1.last_request_time =
        some ((sfHandleRateLimits ⟨some 0, 5⟩ 0).2)) :=
  ⟨c7_amended_min_spacing.1 (1/10) ⟨some 0, 0⟩ 0 0 rfl le_rfl,
   c7_amended_min_spacing.2 ⟨some 0, 5⟩ 0 0 (by decide) rfl le_rfl⟩

/-- C8 counterexample: Google Sheets limiter with configured window budget
2.  The second call — the one that brings the counter to the budget —
itself blocks 100 s at its end and resets the counter to 0; the following
(third, i.e. (b+1)-th) call does not block at all.  This refutes the claim
that the (b+1)-th call is the one that blocks. -/
theorem c8_counterexample :
    sheetsCall2.2 = 101 ∧ sheetsCall2.1.request_count = 0 ∧
    sheetsCall3.2 = sheetsCall2.2 ∧ sheetsCall3.1.request_count = 1 := by
  refine ⟨?_, ?_, ?_, ?_⟩ <;>
    norm_num [sheetsCall3, sheetsCall2, sheetsCall1, sheetsHandleRateLimits,
      sheetsSpacingSleep]

/-- C8 amended: window-budget behaviour as implemented.  Salesforce: a
call entered with the counter at or above 100 sleeps a fixed 5 s, resets
the counter to 0 and skips the spacing logic.  Google Sheets: the call
that raises the counter to the configured budget sleeps a fixed 100 s at
its own end (not the remainder of a tracked window) and resets the counter
to 0; a call that leaves the counter below the budget does not
window-block. -/
theorem c8_amended_window_budget :
    (∀ (st : RlState) (now : ℚ), st.request_count ≥ 100 →
        sfHandleRateLimits st now =
          ({ last_request_time := st.last_request_time, request_count := 0 }, now + 5)) ∧
    (∀ (m : ℚ) (b : Nat) (st : RlState) (now : ℚ), st.request_count + 1 ≥ b →
        (sheetsHandleRateLimits m b st now).1.request_count = 0 ∧
        (sheetsHandleRateLimits m b st now).2 = now + sheetsSpacingSleep m st now + 100) ∧
    (∀ (m : ℚ) (b : Nat) (st : RlState) (now : ℚ), st.request_count + 1 < b →
        (sheetsHandleRateLimits m b st now).1.request_count = st.request_count + 1 ∧
        (sheetsHandleRateLimits m b st now).2 = now + sheetsSpacingSleep m st now) := by
  refine ⟨?_, ?_, ?_⟩
  · intro st now h
    have e : sfHandleRateLimits st now = ({ st with request_count := 0 }, now + 5) := by
      simp only [sfHandleRateLimits]
      rw [if_pos h]
    rw [e]
  · intro m b st now h
    have e : sheetsHandleRateLimits m b st now =
        ({ last_request_time := some now, request_count := 0 },
         now + sheetsSpacingSleep m st now + 100) := by
      simp only [sheetsHandleRateLimits]
      rw [if_pos h]
    rw [e]
    exact ⟨rfl, rfl⟩
  · intro m b st now h
    have hn : ¬ st.request_count + 1 ≥ b := by omega
    have e : sheetsHandleRateLimits m b st now =
        ({ last_request_time := some now, request_count := st.request_count + 1 },
         now + sheetsSpacingSleep m st now) := by
      simp only [sheetsHandleRateLimits]
      rw [if_neg hn]
    rw [e]
    exact ⟨rfl, rfl⟩

/-- C8 witness: concrete instances of all three amended clauses. -/
theorem c8_witness :
    (sfHandleRateLimits ⟨some 0, 100⟩ 7 =
      ({ last_request_time := some 0, request_count := 0 }, 7 + 5)) ∧
    ((sheetsHandleRateLimits 1 2 ⟨some 0, 1⟩ 50).1.request_count = 0 ∧
      (sheetsHandleRateLimits 1 2 ⟨some 0, 1⟩ 50).2 =
        50 + sheetsSpacingSleep 1 ⟨some 0, 1⟩ 50 + 100) ∧
    ((sheetsHandleRateLimits 1 5 ⟨some 0, 1⟩ 50).1.request_count = 1 + 1 ∧
      (sheetsHandleRateLimits 1 5 ⟨some 0, 1⟩ 50).2 =
        50 + sheetsSpacingSleep 1 ⟨some 0, 1⟩ 50) :=
  ⟨c8_amended_window_budget.1 ⟨some 0, 100⟩ 7 (by decide),
   c8_amended_window_budget.2.1 1 2 ⟨some 0, 1⟩ 50 (by decide),
   c8_amended_window_budget.2.2 1 5 ⟨some 0, 1⟩ 50 (by decide)⟩

/-- Shape lemma for Salesforce `fetch_data`: either no exception was
caught, or the result is the empty list and an error was logged. -/
theorem sfFetchData_caught_spec (env : SfEnv) (fuel : Nat) (st : SfState)
    (q : String) (p : Option SfQueryParams) :
    (sfFetchData env fuel st q p).caught = false ∨
    ((sfFetchData env fuel st q p).result = some [] ∧
      ((sfFetchData env fuel st q p).logs).any (fun l => l.1 == LogLevel.error) = true) := by
  cases hval : (sfValidateConnection env st).val with
  | false =>
      simp [sfFetchData, hval]
  | true =>
      simp only [sfFetchData, hval]
      rw [if_neg (by simp)]
      repeat' split
      all_goals simp [List.any_append]

/-- Shape lemma for GA4 `fetch_data`. -/
theorem ga4FetchData_caught_spec (env : Ga4Env) (st : Ga4State) (rt : String) :
    (ga4FetchData env st rt).caught = false ∨
    ((ga4FetchData env st rt).result = [] ∧
      ((ga4FetchData env st rt).logs).any (fun l => l.1 == LogLevel.error) = true) := by
  rcases hv : ga4ValidateConnection env st with ⟨ok, st1, logs1⟩
  cases ok with
  | false =>
      simp [ga4FetchData, hv]
  | true =>
      simp only [ga4FetchData, hv]
      rw [if_neg (by simp)]
      repeat' split
      all_goals simp [List.any_append]

/-- Shape lemma for HubSpot `fetch_data`. -/
theorem hsFetchData_caught_spec (env : HsEnv) (fuel : Nat) (st : HsState) :
    (hsFetchData env fuel st).caught = false ∨
    ((hsFetchData env fuel st).result = some [] ∧
      ((hsFetchData env fuel st).logs).any (fun l => l.1 == LogLevel.error) = true) := by
  cases hval : (hsValidateConnection env st).val with
  | false =>
      simp [hsFetchData, hval]
  | true =>
      simp only [hsFetchData, hval]
      rw [if_neg (by simp)]
      repeat' split
      all_goals simp [List.any_append]

/-- Shape lemma for HubSpot `list_objects`. -/
theorem hsListObjects_caught_spec (env : HsEnv) (st : HsState) :
    (hsListObjects env st).caught = false ∨
    ((hsListObjects env st).result = [] ∧
      ((hsListObjects env st).logs).any (fun l => l.1 == LogLevel.error) = true) := by
  cases hval : (hsValidateConnection env st).val with
  | false =>
      simp [hsListObjects, hval]
  | true =>
      simp only [hsListObjects, hval]
      rw [if_neg (by simp)]
      repeat' split
      all_goals simp [List.any_append]

/-- Shape lemma for Salesforce `fetch_schema`. -/
theorem sfFetchSchema_caught_spec (env : SfEnv) (st : SfState) (obj : String) :
    (sfFetchSchema env st obj).caught = false ∨
    ((sfFetchSchema env st obj).result = none ∧
      ((sfFetchSchema env st obj).logs).any (fun l => l.1 == LogLevel.error) = true) := by
  cases hval : (sfValidateConnection env st).val with
  | false =>
      simp [sfFetchSchema, hval]
  | true =>
      simp only [sfFetchSchema, hval]
      rw [if_neg (by simp)]
      repeat' split
      all_goals simp [List.any_append]

/-- Shape lemma for Salesforce `list_objects`. -/
theorem sfListObjects_caught_spec (env : SfEnv) (st : SfState) :
    (sfListObjects env st).caught = false ∨
    ((sfListObjects env st).result = [] ∧
      ((sfListObjects env st).logs).any (fun l => l.1 == LogLevel.error) = true) := by
  cases hval : (sfValidateConnection env st).val with
  | false =>
      simp [sfListObjects, hval]
  | true =>
      simp only [sfListObjects, hval]
      rw [if_neg (by simp)]
      repeat' split
      all_goals simp [List.any_append]

/-- Shape lemma for HubSpot `fetch_schema`. -/
theorem hsFetchSchema_caught_spec (env : HsEnv) (st : HsState) (obj : String) :
    (hsFetchSchema env st obj).caught = false ∨
    ((hsFetchSchema env st obj).result = none ∧
      ((hsFetchSchema env st obj).logs).any (fun l => l.1 == LogLevel.error) = true) := by
  cases hval : (hsValidateConnection env st).val with
  | false =>
      simp [hsFetchSchema, hval]
  | true =>
      simp only [hsFetchSchema, hval]
      rw [if_neg (by simp)]
      repeat' split
      all_goals simp [List.any_append]

/-- Shape lemma for GA4 `fetch_schema`. -/
theorem ga4FetchSchema_caught_spec (env : Ga4Env) (st : Ga4State) (obj : String) :
    (ga4FetchSchema env st obj).caught = false ∨
    ((ga4FetchSchema env st obj).result = none ∧
      ((ga4FetchSchema env st obj).logs).any (fun l => l.1 == LogLevel.error) = true) := by
  rcases hv : ga4ValidateConnection env st with ⟨ok, st1, logs1⟩
  cases ok with
  | false =>
      simp [ga4FetchSchema, hv]
  | true =>
      simp only [ga4FetchSchema, hv]
      rw [if_neg (by simp)]
      repeat' split
      all_goals simp [List.any_append]

/-- Shape lemma for Google Sheets `fetch_data`. -/
theorem shFetchData_caught_spec (env : ShEnv) (st : ShState) (sid : String)
    (qp : Option ShQueryParams) :
    (shFetchData env st sid qp).caught = false ∨
    ((shFetchData env st sid qp).result = [] ∧
      ((shFetchData env st sid qp).logs).any (fun l => l.1 == LogLevel.error) = true) := by
  rcases hv : shValidateConnection env st with ⟨ok, st1, logs1⟩
  cases ok with
  | false =>
      simp [shFetchData, hv]
  | true =>
      simp only [shFetchData, hv]
      rw [if_neg (by simp)]
      repeat' split
      all_goals simp [List.any_append]

/-- Shape lemma for the tail of Google Sheets `fetch_schema`. -/
theorem shFetchSchemaRest_caught_spec (env : ShEnv) (st1 : ShState)
    (logs0 : List LogEntry) (sid : String) (ss : ShSpreadsheet) (target : ShSheet) :
    (shFetchSchemaRest env st1 logs0 sid ss target).caught = false ∨
    ((shFetchSchemaRest env st1 logs0 sid ss target).result = none ∧
      ((shFetchSchemaRest env st1 logs0 sid ss target).logs).any
        (fun l => l.1 == LogLevel.error) = true) := by
  unfold shFetchSchemaRest
  repeat' split
  all_goals simp [List.any_append]

/-- Shape lemma for Google Sheets `fetch_schema`. -/
theorem shFetchSchema_caught_spec (env : ShEnv) (st : ShState) (sid : String)
    (sn : Option String) :
    (shFetchSchema env st sid sn).caught = false ∨
    ((shFetchSchema env st sid sn).result = none ∧
      ((shFetchSchema env st sid sn).logs).any (fun l => l.1 == LogLevel.error) = true) := by
  rcases hv : shValidateConnection env st with ⟨ok, st1, logs1⟩
  cases ok with
  | false =>
      simp [shFetchSchema, hv]
  | true =>
      simp only [shFetchSchema, hv]
      rw [if_neg (by simp)]
      repeat' split
      all_goals
        first
          | exact shFetchSchemaRest_caught_spec _ _ _ _ _ _
          | simp [List.any_append]

/-- Shape lemma for Google Ads `fetch_data`. -/
theorem gadsFetchData_caught_spec (env : GadsEnv) (st : GadsState) (t : String) :
    (gadsFetchData env st t).caught = false ∨
    ((gadsFetchData env st t).result = [] ∧
      ((gadsFetchData env st t).logs).any (fun l => l.1 == LogLevel.error) = true) := by
  rcases hv : gadsValidateConnection env st with ⟨ok, st1, logs1⟩
  cases ok with
  | false =>
      simp [gadsFetchData, hv]
  | true =>
      simp only [gadsFetchData, hv]
      rw [if_neg (by simp)]
      repeat' split
      all_goals simp [List.any_append]

/-- C1 amended: when `validate_connection` returns false, `fetch_data`
returns the empty sequence without raising, issues no data (query/search)
request, and its log is exactly the validation log plus one **error**-level
entry (the source logs the failure at error level, not as a warning). -/
theorem c1_fail_soft :
    (∀ env fuel st q p, (sfValidateConnection env st).val = false →
        (sfFetchData env fuel st q p).result = some [] ∧
        (sfFetchData env fuel st q p).caught = false ∧
        ((sfFetchData env fuel st q p).reqs).all (fun r => !r.isData) = true ∧
        (sfFetchData env fuel st q p).logs =
          (sfValidateConnection env st).logs ++
            [(.error, "Connection validation failed, cannot fetch data")]) ∧
    (∀ env fuel st, (hsValidateConnection env st).val = false →
        (hsFetchData env fuel st).result = some [] ∧
        (hsFetchData env fuel st).caught = false ∧
        ((hsFetchData env fuel st).reqs).all (fun r => !r.isData) = true ∧
        (hsFetchData env fuel st).logs =
          (hsValidateConnection env st).logs ++
            [(.error, "Connection validation failed, cannot fetch data.")]) := by
  constructor
  · intro env fuel st q p hv
    have hcond : (!(sfValidateConnection env st).val) = true := by simp [hv]
    have e : sfFetchData env fuel st q p =
        ⟨some [], (sfValidateConnection env st).st, (sfValidateConnection env st).reqs,
         (sfValidateConnection env st).logs ++
           [(.error, "Connection validation failed, cannot fetch data")], false⟩ := by
      simp only [sfFetchData, if_pos hcond]
    rw [e]
    exact ⟨rfl, rfl, sfValidate_reqs_not_data env st, rfl⟩
  · intro env fuel st hv
    have hcond : (!(hsValidateConnection env st).val) = true := by simp [hv]
    have e : hsFetchData env fuel st =
        ⟨some [], (hsValidateConnection env st).st, (hsValidateConnection env st).reqs,
         (hsValidateConnection env st).logs ++
           [(.error, "Connection validation failed, cannot fetch data.")], false⟩ := by
      simp only [hsFetchData, if_pos hcond]
    rw [e]
    exact ⟨rfl, rfl, hsValidate_reqs_not_data env st, rfl⟩

/-- C1 counterexample: a Salesforce connector whose validation probe
returns HTTP 500.  Validation fails, `fetch_data` returns the empty list
without any vendor data request — but **no warning-level entry is logged
anywhere**: the failure is logged at error level, refuting the claim that
a warning is logged. -/
theorem c1_counterexample :
    (sfValidateConnection sfProbe500Env sfStTok).val = false ∧
    (sfFetchData sfProbe500Env 1 sfStTok "Account" none).result = some [] ∧
    ((sfFetchData sfProbe500Env 1 sfStTok "Account" none).logs).all
      (fun l => l.1 != LogLevel.warning) = true := by
  refine ⟨?_, ?_, ?_⟩ <;> decide

/-- C1 witness: the amended theorem at the HTTP-500-probe fixtures. -/
theorem c1_witness :
    ((sfFetchData sfProbe500Env 2 sfStTok "Lead" none).result = some [] ∧
      (sfFetchData sfProbe500Env 2 sfStTok "Lead" none).caught = false ∧
      ((sfFetchData sfProbe500Env 2 sfStTok "Lead" none).reqs).all
        (fun r => !r.isData) = true ∧
      (sfFetchData sfProbe500Env 2 sfStTok "Lead" none).logs =
        (sfValidateConnection sfProbe500Env sfStTok).logs ++
          [(.error, "Connection validation failed, cannot fetch data")]) ∧
    ((hsFetchData hsProbe500Env 2 hsStTok).result = some [] ∧
      (hsFetchData hsProbe500Env 2 hsStTok).caught = false ∧
      ((hsFetchData hsProbe500Env 2 hsStTok).reqs).all (fun r => !r.isData) = true ∧
      (hsFetchData hsProbe500Env 2 hsStTok).logs =
        (hsValidateConnection hsProbe500Env hsStTok).logs ++
          [(.error, "Connection validation failed, cannot fetch data.")]) :=
  ⟨c1_fail_soft.1 sfProbe500Env 2 sfStTok "Lead" none (by decide),
   c1_fail_soft.2 hsProbe500Env 2 hsStTok (by decide)⟩

/-- C2: exceptions raised during the vendor interaction never propagate
from `fetch_data`, `fetch_schema` or `list_objects` of any connector.
The embeddings of all twelve operations present in the sources —
`fetch_data` and `fetch_schema` for Salesforce, GA4, HubSpot, Google
Sheets and Google Ads, and `list_objects` for Salesforce and HubSpot (the
only connectors that define it) — are total functions: a raised vendor
exception is a `.error` environment answer, and whenever the catch branch
fired the operation returned the empty sequence/mapping and logged an
error-level entry.  Google Ads `fetch_schema` performs no vendor
interaction at all, stated as independence from the vendor environment. -/
theorem c2_never_propagates :
    (∀ env fuel st q p, (sfFetchData env fuel st q p).caught = true →
        (sfFetchData env fuel st q p).result = some [] ∧
        ((sfFetchData env fuel st q p).logs).any (fun l => l.1 == LogLevel.error) = true) ∧
    (∀ env st obj, (sfFetchSchema env st obj).caught = true →
        (sfFetchSchema env st obj).result = none ∧
        ((sfFetchSchema env st obj).logs).any (fun l => l.1 == LogLevel.error) = true) ∧
    (∀ env st, (sfListObjects env st).caught = true →
        (sfListObjects env st).result = [] ∧
        ((sfListObjects env st).logs).any (fun l => l.1 == LogLevel.error) = true) ∧
    (∀ env st rt, (ga4FetchData env st rt).caught = true →
        (ga4FetchData env st rt).result = [] ∧
        ((ga4FetchData env st rt).logs).any (fun l => l.1 == LogLevel.error) = true) ∧
    (∀ env st obj, (ga4FetchSchema env st obj).caught = true →
        (ga4FetchSchema env st obj).result = none ∧
        ((ga4FetchSchema env st obj).logs).any (fun l => l.1 == LogLevel.error) = true) ∧
    (∀ env fuel st, (hsFetchData env fuel st).caught = true →
        (hsFetchData env fuel st).result = some [] ∧
        ((hsFetchData env fuel st).logs).any (fun l => l.1 == LogLevel.error) = true) ∧
    (∀ env st obj, (hsFetchSchema env st obj).caught = true →
        (hsFetchSchema env st obj).result = none ∧
        ((hsFetchSchema env st obj).logs).any (fun l => l.1 == LogLevel.error) = true) ∧
    (∀ env st, (hsListObjects env st).caught = true →
        (hsListObjects env st).result = [] ∧
        ((hsListObjects env st).logs).any (fun l => l.1 == LogLevel.error) = true) ∧
    (∀ env st sid qp, (shFetchData env st sid qp).caught = true →
        (shFetchData env st sid qp).result = [] ∧
        ((shFetchData env st sid qp).logs).any (fun l => l.1 == LogLevel.error) = true) ∧
    (∀ env st sid sn, (shFetchSchema env st sid sn).caught = true →
        (shFetchSchema env st sid sn).result = none ∧
        ((shFetchSchema env st sid sn).logs).any (fun l => l.1 == LogLevel.error) = true) ∧
    (∀ env st t, (gadsFetchData env st t).caught = true →
        (gadsFetchData env st t).result = [] ∧
        ((gadsFetchData env st t).logs).any (fun l => l.1 == LogLevel.error) = true) ∧
    (∀ e1 e2 st t now, gadsFetchSchema e1 st t now = gadsFetchSchema e2 st t now) := by
  refine ⟨?_, ?_, ?_, ?_, ?_, ?_, ?_, ?_, ?_, ?_, ?_, ?_⟩
  · intro env fuel st q p h
    rcases sfFetchData_caught_spec env fuel st q p with hf | hok
    · rw [h] at hf; exact absurd hf (by decide)
    · exact hok
  · intro env st obj h
    rcases sfFetchSchema_caught_spec env st obj with hf | hok
    · rw [h] at hf; exact absurd hf (by decide)
    · exact hok
  · intro env st h
    rcases sfListObjects_caught_spec env st with hf | hok
    · rw [h] at hf; exact absurd hf (by decide)
    · exact hok
  · intro env st rt h
    rcases ga4FetchData_caught_spec env st rt with hf | hok
    · rw [h] at hf; exact absurd hf (by decide)
    · exact hok
  · intro env st obj h
    rcases ga4FetchSchema_caught_spec env st obj with hf | hok
    · rw [h] at hf; exact absurd hf (by decide)
    · exact hok
  · intro env fuel st h
    rcases hsFetchData_caught_spec env fuel st with hf | hok
    · rw [h] at hf; exact absurd hf (by decide)
    · exact hok
  · intro env st obj h
    rcases hsFetchSchema_caught_spec env st obj with hf | hok
    · rw [h] at hf; exact absurd hf (by decide)
    · exact hok
  · intro env st h
    rcases hsListObjects_caught_spec env st with hf | hok
    · rw [h] at hf; exact absurd hf (by decide)
    · exact hok
  · intro env st sid qp h
    rcases shFetchData_caught_spec env st sid qp with hf | hok
    · rw [h] at hf; exact absurd hf (by decide)
    · exact hok
  · intro env st sid sn h
    rcases shFetchSchema_caught_spec env st sid sn with hf | hok
    · rw [h] at hf; exact absurd hf (by decide)
    · exact hok
  · intro env st t h
    rcases gadsFetchData_caught_spec env st t with hf | hok
    · rw [h] at hf; exact absurd hf (by decide)
    · exact hok
  · intro e1 e2 st t now
    rfl

/-- C2 witness: concrete raising environments for every covered
operation, plus the environment-independence of the Google Ads schema. -/
theorem c2_witness :
    ((sfFetchData sfQueryErrEnv 1 sfStTok "Account" none).result = some [] ∧
      ((sfFetchData sfQueryErrEnv 1 sfStTok "Account" none).logs).any
        (fun l => l.1 == LogLevel.error) = true) ∧
    ((sfFetchSchema sfDescribeErrEnv sfStTok "Account").result = none ∧
      ((sfFetchSchema sfDescribeErrEnv sfStTok "Account").logs).any
        (fun l => l.1 == LogLevel.error) = true) ∧
    ((sfListObjects sfSobjectsErrEnv sfStTok).result = [] ∧
      ((sfListObjects sfSobjectsErrEnv sfStTok).logs).any
        (fun l => l.1 == LogLevel.error) = true) ∧
    ((ga4FetchData ga4ReportErrEnv ga4StClient "standard").result = [] ∧
      ((ga4FetchData ga4ReportErrEnv ga4StClient "standard").logs).any
        (fun l => l.1 == LogLevel.error) = true) ∧
    ((ga4FetchSchema ga4MetaErrEnv ga4StClient "metadata").result = none ∧
      ((ga4FetchSchema ga4MetaErrEnv ga4StClient "metadata").logs).any
        (fun l => l.1 == LogLevel.error) = true) ∧
    ((hsFetchData hsSearchErrEnv 1 hsStTok).result = some [] ∧
      ((hsFetchData hsSearchErrEnv 1 hsStTok).logs).any
        (fun l => l.1 == LogLevel.error) = true) ∧
    ((hsFetchSchema hsSchemaGetErrEnv hsStTok "contacts").result = none ∧
      ((hsFetchSchema hsSchemaGetErrEnv hsStTok "contacts").logs).any
        (fun l => l.1 == LogLevel.error) = true) ∧
    ((hsListObjects hsSchemasErrEnv hsStTok).result = [] ∧
      ((hsListObjects hsSchemasErrEnv hsStTok).logs).any
        (fun l => l.1 == LogLevel.error) = true) ∧
    ((shFetchData shFetchErrEnv shStService "sheetid1" none).result = [] ∧
      ((shFetchData shFetchErrEnv shStService "sheetid1" none).logs).any
        (fun l => l.1 == LogLevel.error) = true) ∧
    ((shFetchSchema shFetchErrEnv shStService "sheetid1" none).result = none ∧
      ((shFetchSchema shFetchErrEnv shStService "sheetid1" none).logs).any
        (fun l => l.1 == LogLevel.error) = true) ∧
    ((gadsFetchData gadsSearchErrEnv gadsStClient "campaigns").result = [] ∧
      ((gadsFetchData gadsSearchErrEnv gadsStClient "campaigns").logs).any
        (fun l => l.1 == LogLevel.error) = true) ∧
    (gadsFetchSchema gadsEnvBase gadsStClient "campaigns" "2026-10-12T00:00:00" =
      gadsFetchSchema gadsSearchErrEnv gadsStClient "campaigns" "2026-10-12T00:00:00") :=
  ⟨c2_never_propagates.1 sfQueryErrEnv 1 sfStTok "Account" none (by decide),
   c2_never_propagates.2.1 sfDescribeErrEnv sfStTok "Account" (by decide),
   c2_never_propagates.2.2.1 sfSobjectsErrEnv sfStTok (by decide),
   c2_never_propagates.2.2.2.1 ga4ReportErrEnv ga4StClient "standard" (by decide),
   c2_never_propagates.2.2.2.2.1 ga4MetaErrEnv ga4StClient "metadata" (by decide),
   c2_never_propagates.2.2.2.2.2.1 hsSearchErrEnv 1 hsStTok (by decide),
   c2_never_propagates.2.2.2.2.2.2.1 hsSchemaGetErrEnv hsStTok "contacts" (by decide),
   c2_never_propagates.2.2.2.2.2.2.2.1 hsSchemasErrEnv hsStTok (by decide),
   c2_never_propagates.2.2.2.2.2.2.2.2.1 shFetchErrEnv shStService "sheetid1" none
     (by decide),
   c2_never_propagates.2.2.2.2.2.2.2.2.2.1 shFetchErrEnv shStService "sheetid1" none
     (by decide),
   c2_never_propagates.2.2.2.2.2.2.2.2.2.2.1 gadsSearchErrEnv gadsStClient "campaigns"
     (by decide),
   c2_never_propagates.2.2.2.2.2.2.2.2.2.2.2 gadsEnvBase gadsSearchErrEnv gadsStClient
     "campaigns" "2026-10-12T00:00:00"⟩

/-- C4 counterexample: a HubSpot schema with vendor field
`{"amount": "currency"}` where no mapping for "currency" exists.
`list_objects` emits `{columnName: "amount", dataType: "currency"}` — the
vendor-native type string verbatim, not the claimed closed-vocabulary
default "string", and no `nullable` key at all. -/
theorem c4_counterexample :
    (hsListObjects hsSchemaCurrencyEnv hsStTok).result =
      [("hubspot", [("deals", [[("columnName", "amount"), ("dataType", "currency")]])])] ∧
    Row.get? [("columnName", "amount"), ("dataType", "currency")] "dataType" ≠ some "string" ∧
    Row.hasKey [("columnName", "amount"), ("dataType", "currency")] "nullable" = false := by
  refine ⟨rfl, by decide, by decide⟩

/-- C4 amended: `list_objects` normalization emits
`{columnName, dataType}` with the vendor type string passed through
verbatim; the "string" default fires only when the vendor omits the type
key, and no nullability flag is emitted (Salesforce `fetch_schema` always
stores the vendor type under `'type'`, so its `'string'` default is dead). -/
theorem c4_verbatim_types :
    (∀ n t : String, hsNormalizeProp (n, some t) = [("columnName", n), ("dataType", t)]) ∧
    (∀ n : String, hsNormalizeProp (n, none) = [("columnName", n), ("dataType", "string")]) ∧
    (∀ p : String × Option String, (hsNormalizeProp p).hasKey "nullable" = false) ∧
    (∀ fields : List (String × Row), ∀ c ∈ sfFieldsToColumns fields,
        c.hasKey "nullable" = false ∧
        ∃ f ∈ fields,
          c = [("columnName", f.1), ("dataType", (Row.get? f.2 "type").getD "string")]) ∧
    (∀ env st schemas, env.schemasResp = .ok schemas →
        (hsValidateConnection env st).val = true →
        (hsListObjects env st).result =
          [("hubspot", schemas.map (fun s => (s.name, s.properties.map hsNormalizeProp)))]) := by
  refine ⟨fun n t => rfl, fun n => rfl, ?_, ?_, ?_⟩
  · intro p
    simp [hsNormalizeProp, Row.hasKey]
  · intro fields c hc
    simp only [sfFieldsToColumns, List.mem_map] at hc
    obtain ⟨f, hf, rfl⟩ := hc
    exact ⟨by simp [Row.hasKey], f, hf, rfl⟩
  · intro env st schemas hres hv
    simp only [hsListObjects, hv]
    rw [if_neg (by simp), hres]

/-- C4 witness: the amended theorem at the "currency" fixture and a
Salesforce described-field instance. -/
theorem c4_witness :
    ((hsListObjects hsSchemaCurrencyEnv hsStTok).result =
      [("hubspot",
        ([⟨"deals", [("amount", some "currency")]⟩] : List HsSchemaInfo).map
          (fun s => (s.name, s.properties.map hsNormalizeProp)))]) ∧
    (Row.hasKey [("columnName", "amt"), ("dataType", "currency")] "nullable" = false ∧
      ∃ f ∈ [("amt", [("type", "currency"), ("label", "Amount")])],
        ([("columnName", "amt"), ("dataType", "currency")] : Row) =
          [("columnName", f.1), ("dataType", (Row.get? f.2 "type").getD "string")]) :=
  ⟨c4_verbatim_types.2.2.2.2 hsSchemaCurrencyEnv hsStTok
      [⟨"deals", [("amount", some "currency")]⟩] rfl (by decide),
   c4_verbatim_types.2.2.2.1 [("amt", [("type", "currency"), ("label", "Amount")])]
      [("columnName", "amt"), ("dataType", "currency")] (by decide)⟩

/-- C9: with no refresh token, `refresh_access_token` fails without any
HTTP request and without touching the token state: Salesforce raises,
HubSpot returns `False`.  On success Salesforce returns the vendor's token
payload and replaces the stored access token; HubSpot also replaces the
stored token, but its return value is the constant `True` — evaluating the
method in two environments issuing different access tokens yields the same
return value, so the new token data is not returned to the caller
(`app.py`'s refresh route nevertheless expects token data). -/
theorem c9_refresh_behaviour :
    (∀ env st, st.refresh_token = none →
        sfRefreshAccessToken env st =
          ⟨.error "No refresh token available.", st, [],
           [(.error, "No refresh token available to refresh the access token.")]⟩) ∧
    (∀ env st, st.refresh_token = none →
        hsRefreshAccessToken env st =
          ⟨.ok false, st, [],
           [(.error, "No refresh token available to refresh the access token.")]⟩) ∧
    (∀ env st r auth tok, st.refresh_token = some r →
        env.refreshResp = .ok auth → Row.get? auth "access_token" = some tok →
        (sfRefreshAccessToken env st).val = .ok auth ∧
        (sfRefreshAccessToken env st).st.access_token = some tok) ∧
    ((hsRefreshAccessToken hsTokEnvA hsStTok).val =
        (hsRefreshAccessToken hsTokEnvB hsStTok).val ∧
      (hsRefreshAccessToken hsTokEnvA hsStTok).st.access_token = some "newA" ∧
      (hsRefreshAccessToken hsTokEnvB hsStTok).st.access_token = some "newB") := by
  refine ⟨?_, ?_, ?_, ?_⟩
  · intro env st h
    simp only [sfRefreshAccessToken, h]
  · intro env st h
    simp only [hsRefreshAccessToken, h]
  · intro env st r auth tok hr hresp htok
    simp only [sfRefreshAccessToken, hr, hresp, htok]
    constructor <;> trivial
  · exact ⟨rfl, rfl, rfl⟩

/-- C9 witness: the refresh clauses at concrete fixtures. -/
theorem c9_witness :
    (sfRefreshAccessToken sfEnvBase sfStTok =
      ⟨.error "No refresh token available.", sfStTok, [],
       [(.error, "No refresh token available to refresh the access token.")]⟩) ∧
    (hsRefreshAccessToken hsEnvBase hsStNoRefresh =
      ⟨.ok false, hsStNoRefresh, [],
       [(.error, "No refresh token available to refresh the access token.")]⟩) ∧
    ((sfRefreshAccessToken { sfEnvBase with refreshResp := .ok [("access_token", "t3")] }
        sfStTokRefresh).val = .ok [("access_token", "t3")] ∧
      (sfRefreshAccessToken { sfEnvBase with refreshResp := .ok [("access_token", "t3")] }
        sfStTokRefresh).st.access_token = some "t3") :=
  ⟨c9_refresh_behaviour.1 sfEnvBase sfStTok rfl,
   c9_refresh_behaviour.2.1 hsEnvBase hsStNoRefresh rfl,
   c9_refresh_behaviour.2.2.1 { sfEnvBase with refreshResp := .ok [("access_token", "t3")] }
      sfStTokRefresh "ref" [("access_token", "t3")] "t3" rfl rfl (by decide)⟩

/-- With an always-cursor page source the Salesforce pagination loop
consumes any amount of fuel without exiting. -/
theorem sfPageLoop_alwaysCursor (env : SfEnv) (h : sfAlwaysCursor env) :
    ∀ fuel st acc url reqs logs,
      sfPageLoop env fuel st acc (some url) reqs logs = .fuelOut := by
  intro fuel
  induction fuel with
  | zero => intro st acc url reqs logs; rfl
  | succ n ih =>
      intro st acc url reqs logs
      obtain ⟨rs, u, hresp⟩ := h url
      simp only [sfPageLoop, hresp]
      rw [if_pos True.intro]
      exact ih _ _ _ _ _

/-- With an always-cursor page source the HubSpot search loop consumes
any amount of fuel without exiting. -/
theorem hsFetchLoop_alwaysCursor (env : HsEnv) (h : hsAlwaysCursor env) :
    ∀ fuel after acc reqs logs,
      hsFetchLoop env fuel after acc reqs logs = .fuelOut := by
  intro fuel
  induction fuel with
  | zero => intro after acc reqs logs; rfl
  | succ n ih =>
      intro after acc reqs logs
      obtain ⟨items, a, hresp⟩ := h after
      simp only [hsFetchLoop, hresp]
      exact ih _ _ _ _

/-- Divergence of Salesforce `fetch_data` under an always-cursor source. -/
theorem sfFetch_diverges_of (env : SfEnv) (st : SfState) (q : String)
    (p : Option SfQueryParams)
    (hv : (sfValidateConnection env st).val = true)
    (hq : ∃ rs u, env.queryResp = .ok ⟨200, rs, some u⟩)
    (hc : sfAlwaysCursor env) :
    sfFetchDiverges env st q p := by
  intro fuel
  obtain ⟨rs, u, hqe⟩ := hq
  simp only [sfFetchData, hv, hqe]
  rw [if_neg (by simp)]
  rw [if_pos True.intro]
  rw [sfPageLoop_alwaysCursor env hc]

/-- Divergence of HubSpot `fetch_data` under an always-cursor source. -/
theorem hsFetch_diverges_of (env : HsEnv) (st : HsState)
    (hv : (hsValidateConnection env st).val = true)
    (hc : hsAlwaysCursor env) :
    hsFetchDiverges env st := by
  intro fuel
  simp only [hsFetchData, hv]
  rw [if_neg (by simp)]
  rw [hsFetchLoop_alwaysCursor env hc]

/-- C5 amended: the pagination loops have **no page cap**: whenever the
page source never returns an absent cursor, `fetch_data` loops forever —
for every fuel bound the loop is still running — and no pagination-limit
condition exists anywhere in the code (the loop has no such exit). -/
theorem c5_no_page_cap :
    (∀ env st q p, (sfValidateConnection env st).val = true →
        (∃ rs u, env.queryResp = .ok ⟨200, rs, some u⟩) →
        sfAlwaysCursor env → sfFetchDiverges env st q p) ∧
    (∀ env st, (hsValidateConnection env st).val = true →
        hsAlwaysCursor env → hsFetchDiverges env st) :=
  ⟨fun env st q p hv hq hc => sfFetch_diverges_of env st q p hv hq hc,
   fun env st hv hc => hsFetch_diverges_of env st hv hc⟩

/-- C5 counterexample: a concrete Salesforce page source whose every
response carries a continuation cursor.  `fetch_data` never terminates —
after any number of loop iterations it is still running — and never
surfaces any pagination-limit condition, refuting the claimed finite page
cap with `PaginationLimitExceeded`. -/
theorem c5_counterexample :
    sfFetchDiverges sfConstCursorEnv sfStTok "Account" none :=
  sfFetch_diverges_of _ _ _ _ (by decide) ⟨[], "next", rfl⟩ (fun _ => ⟨[], "next", rfl⟩)

/-- C5 witness: the amended theorem at concrete always-cursor fixtures. -/
theorem c5_witness :
    sfFetchDiverges sfConstCursorEnv sfStTok "Lead" none ∧
    hsFetchDiverges hsConstCursorEnv hsStTok :=
  ⟨c5_no_page_cap.1 sfConstCursorEnv sfStTok "Lead" none (by decide) ⟨[], "next", rfl⟩
      (fun _ => ⟨[], "next", rfl⟩),
   c5_no_page_cap.2 hsConstCursorEnv hsStTok (by decide) (fun _ => ⟨[], "cursor", rfl⟩)⟩

/-- Following a finite chain of pages, the Salesforce pagination loop
exits normally with the concatenation of all page records, in page order. -/
theorem sfPageLoop_chain (env : SfEnv) :
    ∀ (cur : Option String) (pages : List (List Row)), SfChain env cur pages →
    ∀ fuel, pages.length ≤ fuel →
    ∀ st acc reqs logs, ∃ st2 reqs2 logs2,
      sfPageLoop env fuel st acc cur reqs logs =
        .out (acc ++ pages.flatten) st2 reqs2 logs2 := by
  intro cur pages h
  induction h with
  | nil =>
      intro fuel _ st acc reqs logs
      exact ⟨st, reqs, logs, by simp [sfPageLoop]⟩
  | @cons url rs next rest hresp hrest ih =>
      intro fuel hfuel st acc reqs logs
      cases fuel with
      | zero => simp at hfuel
      | succ n =>
          have hn : rest.length ≤ n := by
            simp only [List.length_cons] at hfuel
            omega
          obtain ⟨st2, reqs2, logs2, heq⟩ :=
            ih n hn ({ st with request_count := sfBumpCount st.request_count })
              (acc ++ rs) (reqs ++ [.nextPage url])
              (logs ++ [(.debug, "Fetching next batch from: " ++ url)])
          refine ⟨st2, reqs2, logs2, ?_⟩
          simp only [sfPageLoop, hresp]
          rw [if_pos True.intro]
          rw [heq]
          simp [List.append_assoc]

/-- C6 amended: a page source yielding a finite chain of pages makes
`fetch_data` terminate with exactly the concatenation of all pages in page
order (so k equal pages of n records give k·n records) — but the records
are returned as the vendor sent them, with only the `attributes` envelope
stripped: the Salesforce paged fetch adds no `_extracted_at` metadata.
The `_extracted_at` key is added per record by the GA4 report converter. -/
theorem c6_page_aggregation :
    (∀ env fuel st q p first cur pages,
        (sfValidateConnection env st).val = true →
        env.queryResp = .ok ⟨200, first, cur⟩ →
        SfChain env cur pages →
        pages.length ≤ fuel →
        ∃ out, (sfFetchData env fuel st q p).result = some out ∧
          out = ((first :: pages).flatten).map (fun r => Row.del r "attributes") ∧
          out.length = ((first :: pages).map List.length).sum) ∧
    (∀ (ps : List (List Row)) (n : Nat), (∀ x ∈ ps, x.length = n) →
        (ps.map List.length).sum = ps.length * n) ∧
    (∀ pid now resp rt, ∀ r ∈ ga4ConvertReportToRecords pid now resp rt,
        Row.get? r "_extracted_at" = some now) := by
  refine ⟨?_, ?_, ?_⟩
  · intro env fuel st q p first cur pages hv hq hchain hfuel
    obtain ⟨st2, reqs2, logs2, heq⟩ := sfPageLoop_chain env cur pages hchain fuel hfuel
      ({ (sfValidateConnection env st).st with
          request_count := sfBumpCount (sfValidateConnection env st).st.request_count })
      first ((sfValidateConnection env st).reqs ++ [.query (sfBuildQuery q p)])
      ((sfValidateConnection env st).logs ++
        [(.debug, "SOQL Query: " ++ sfBuildQuery q p)])
    refine ⟨((first :: pages).flatten).map (fun r => Row.del r "attributes"), ?_, rfl, ?_⟩
    · simp only [sfFetchData, hv, hq]
      rw [if_neg (by simp)]
      rw [if_pos True.intro]
      rw [heq]
      simp
    · rw [List.length_map, List.length_flatten]
  · intro ps n h
    induction ps with
    | nil => simp
    | cons a t ih =>
        simp only [List.map_cons, List.sum_cons, List.length_cons, h a (by simp)]
        rw [ih (fun x hx => h x (by simp [hx]))]
        ring
  · intro pid now resp rt r hr
    simp only [ga4ConvertReportToRecords, List.mem_map] at hr
    obtain ⟨row, hrow, rfl⟩ := hr
    exact Row.get?_setVal _ _ _

/-- C6 counterexample: a successful two-page Salesforce fetch (one record
per page) returns the two records in page order — but neither carries any
`_extracted_at` key, refuting the claim that every record of a paged fetch
carries populated extraction metadata. -/
theorem c6_counterexample :
    (sfFetchData sfTwoPageEnv 2 sfStTok "Account" none).result =
      some [[("Id", "1")], [("Id", "2")]] ∧
    (([[("Id", "1")], [("Id", "2")]] : List Row).all
      (fun r => !(Row.hasKey r "_extracted_at"))) = true :=
  ⟨rfl, by decide⟩

/-- C6 witness: the amended theorem at the two-page fixture and the GA4
converter fixture. -/
theorem c6_witness :
    ((sfFetchData sfTwoPageEnv 5 sfStTok "Contact" none).result =
      some ((([[[("Id", "1"), ("attributes", "meta")]], [[("Id", "2")]]] :
        List (List Row)).flatten).map (fun r => Row.del r "attributes"))) ∧
    (([[[("Id", "1")]], [[("Id", "2")]]] : List (List Row)).map List.length).sum =
      ([[[("Id", "1")]], [[("Id", "2")]]] : List (List Row)).length * 1 ∧
    Row.get? ga4SampleRow "_extracted_at" = some "2026-10-12T00:00:00" := by
  refine ⟨?_, ?_, ?_⟩
  · obtain ⟨out, h1, h2, h3⟩ := c6_page_aggregation.1 sfTwoPageEnv 5 sfStTok "Contact" none
      [[("Id", "1"), ("attributes", "meta")]] (some "page2") [[[("Id", "2")]]]
      (by decide) rfl (SfChain.cons rfl SfChain.nil) (by decide)
    rw [h1, h2]
  · exact c6_page_aggregation.2.1 [[[("Id", "1")]], [[("Id", "2")]]] 1 (by decide)
  · exact c6_page_aggregation.2.2 (some "properties/1") "2026-10-12T00:00:00"
      ga4SampleReport "standard" ga4SampleRow (by decide)

/-- C10: for every environment and every terminating fetch, no record in
the list returned by Salesforce `fetch_data` contains the vendor envelope
key `attributes` — the strip loop runs over the full aggregated list on
the only success path, and every failure path returns the empty list. -/
theorem c10_attributes_removed :
    ∀ env fuel st q p out, (sfFetchData env fuel st q p).result = some out →
      ∀ r ∈ out, Row.hasKey r "attributes" = false := by
  intro env fuel st q p out h r hr
  simp only [sfFetchData] at h
  split at h
  · rw [← Option.some.inj h] at hr
    cases hr
  · split at h
    · rw [← Option.some.inj h] at hr
      cases hr
    · split at h
      · split at h
        · obtain rfl := Option.some.inj h
          obtain ⟨r2, hr2, rfl⟩ := List.mem_map.1 hr
          exact Row.hasKey_del r2 "attributes"
        · rw [← Option.some.inj h] at hr
          cases hr
        · exact absurd h (by simp)
      · rw [← Option.some.inj h] at hr
        cases hr

/-- C10 witness: a fetched record that carried `attributes` comes back
without it. -/
theorem c10_witness : Row.hasKey [("Id", "7")] "attributes" = false :=
  c10_attributes_removed sfAttrEnv 1 sfStTok "Account" none [[("Id", "7")]] rfl
    [("Id", "7")] (by decide)
